import Mathlib

/-!
Verification of the VelocityDRIVE LAN9662 host-side protocol stack
(JavaScript sources) against its natural-language specification.

The shallow embedding below translates, function by function, the CBOR
value codec (`src/unnamed/part_002`), the line-oriented WebSerial command
queue (`src/unnamed/part_001`, class `WebSerialCore`) and the request /
event plumbing of `src/js/velocitydrive-client.js` into Lean.
Machine arithmetic is modelled over `Nat`/`Int` with explicit `% 256`
byte normalisation; JavaScript `undefined`/`NaN` propagation in the
decoder is modelled with `Option Nat`; fallible code returns
`Except String`.
-/

namespace CBOR

/-! ### JavaScript numbers

A JavaScript number is an IEEE-754 binary64 value.  We model a number by
its 64-bit pattern (a `Nat` below `2^64`); this is faithful to the
source language, where the "integer 5" and the "float 5.0" are one and
the same value.  `Number.isInteger` and the numeric value of an integral
pattern are computed from the sign / exponent / mantissa fields.
-/

/-- Sign bit of a binary64 pattern. -/
def signBit (b : Nat) : Nat := b / 2 ^ 63 % 2

/-- 11-bit exponent field of a binary64 pattern. -/
def expField (b : Nat) : Nat := b / 2 ^ 52 % 2 ^ 11

/-- 52-bit mantissa field of a binary64 pattern. -/
def manField (b : Nat) : Nat := b % 2 ^ 52

/-- `Number.isInteger` on a binary64 bit pattern: NaN and the infinities
are not integers; a subnormal is an integer only if it is (±)0; a normal
value `±(2^52 + m) * 2^(e - 1075)` is an integer iff the scaled mantissa
has no fractional bits. -/
def isInteger (b : Nat) : Bool :=
  if expField b = 2047 then false
  else if expField b = 0 then manField b = 0
  else (2 ^ 52 + manField b) % 2 ^ (1075 - expField b) = 0

/-- Numeric value of an integral binary64 pattern (consulted only when
`isInteger` holds; `-0` maps to `0`, as JavaScript's `>= 0` test treats it). -/
def toInt (b : Nat) : Int :=
  let mag : Nat :=
    if expField b = 0 then 0
    else if 1075 ≤ expField b then (2 ^ 52 + manField b) * 2 ^ (expField b - 1075)
    else (2 ^ 52 + manField b) / 2 ^ (1075 - expField b)
  if signBit b = 1 then -(mag : Int) else (mag : Int)

/-- Fuel-driven floor of `log2` (structurally recursive so that it
evaluates by `rfl`/`decide`; `log2fuel n n` is exact for every `n`). -/
def log2fuel : Nat → Nat → Nat
  | 0, _ => 0
  | fuel + 1, n => if n < 2 then 0 else log2fuel fuel (n / 2) + 1

/-- Binary64 bit pattern of a natural number (exact for `n < 2^53`);
used to name concrete JavaScript number values in the theorems. -/
def ofNat (n : Nat) : Nat :=
  if n = 0 then 0
  else
    let k := log2fuel n n
    (1023 + k) * 2 ^ 52 + (n * 2 ^ (52 - k) - 2 ^ 52)

/-- The eight big-endian bytes `DataView.setFloat64` writes for a number
with bit pattern `b` (source lines 34-39 of `src/unnamed/part_002`). -/
def float64Bytes (b : Nat) : List Nat :=
  [b / 2 ^ 56 % 256, b / 2 ^ 48 % 256, b / 2 ^ 40 % 256, b / 2 ^ 32 % 256,
   b / 2 ^ 24 % 256, b / 2 ^ 16 % 256, b / 2 ^ 8 % 256, b % 256]

/-- The JavaScript values the encoder of `src/unnamed/part_002` accepts:
`null`, `undefined`, booleans, numbers (by bit pattern), strings (by the
UTF-8 bytes `TextEncoder` produces), `Uint8Array`s, arrays, and plain
objects (string-keyed, in property-insertion order). -/
inductive Value where
  | null
  | undef
  | bool (b : Bool)
  | num (bits : Nat)
  | text (utf8 : List Nat)
  | bytes (bs : List Nat)
  | arr (vs : List Value)
  | map (kvs : List (List Nat × Value))

/-- `encodeUnsigned(value, majorType, buffer)` (source lines 63-81):
width-minimal head for a non-negative integer below `2^32`; for larger
values no branch fires and nothing is appended.  The pushed bytes are
written here in the normalised form the final `Uint8Array` holds: for
`value < 2^32` JavaScript's signed 32-bit shifts followed by the
`Uint8Array`'s byte truncation produce exactly the big-endian base-256
digits `value / 2^(8k) % 256`. -/
def encodeUnsigned (value : Nat) (majorType : Nat) (buffer : List Nat) : List Nat :=
  let type := majorType * 32
  if value < 24 then buffer ++ [type + value]
  else if value < 256 then buffer ++ [type + 24, value]
  else if value < 65536 then buffer ++ [type + 25, value / 256, value % 256]
  else if value < 4294967296 then
    buffer ++ [type + 26, value / 16777216 % 256, value / 65536 % 256,
               value / 256 % 256, value % 256]
  else buffer

/-- Encoding of a string value (the `typeof value === 'string'` branch of
`encodeItem`, source lines 41-44), split out so that the object branch can
invoke it for its keys without leaving structural recursion; the lemma
`encodeTextKey_eq_encodeItem` below checks it coincides with `encodeItem`
on strings. -/
def encodeTextKey (utf8 : List Nat) (buffer : List Nat) : List Nat :=
  encodeUnsigned utf8.length 3 buffer ++ utf8

mutual

/-- `encodeItem(value, buffer)` (source lines 18-61).  The number branch
tests `Number.isInteger`; a non-negative integer is encoded under major
type 0, a negative one as `-value - 1` under major type 1, and any other
number as `0xFB` followed by its eight big-endian binary64 bytes.  The
function never throws. -/
def encodeItem : Value → List Nat → List Nat
  | .null, buffer => buffer ++ [246]
  | .undef, buffer => buffer ++ [247]
  | .bool b, buffer => buffer ++ [if b then 245 else 244]
  | .num bits, buffer =>
      if isInteger bits then
        if 0 ≤ toInt bits then encodeUnsigned (toInt bits).toNat 0 buffer
        else encodeUnsigned (-(toInt bits) - 1).toNat 1 buffer
      else (buffer ++ [251]) ++ float64Bytes bits
  | .text utf8, buffer => encodeUnsigned utf8.length 3 buffer ++ utf8
  | .bytes bs, buffer => encodeUnsigned bs.length 2 buffer ++ bs
  | .arr vs, buffer => encodeArr vs (encodeUnsigned vs.length 4 buffer)
  | .map kvs, buffer => encodeMapPairs kvs (encodeUnsigned kvs.length 5 buffer)

/-- The `for (const item of value)` loop of the array branch. -/
def encodeArr : List Value → List Nat → List Nat
  | [], buffer => buffer
  | v :: vs, buffer => encodeArr vs (encodeItem v buffer)

/-- The `for (const key of keys)` loop of the object branch: each key is
encoded as a string, then its value. -/
def encodeMapPairs : List (List Nat × Value) → List Nat → List Nat
  | [], buffer => buffer
  | kv :: kvs, buffer => encodeMapPairs kvs (encodeItem kv.2 (encodeTextKey kv.1 buffer))

end

/-- The object branch's `encodeItem(key, buffer)` on a string key is the
split-out `encodeTextKey`. -/
theorem encodeTextKey_eq_encodeItem (utf8 buffer : List Nat) :
    encodeTextKey utf8 buffer = encodeItem (.text utf8) buffer := rfl

/-- `encode(value)` (source lines 6-10). -/
def encode (value : Value) : List Nat := encodeItem value []

/-! ### Decoding

`decodeItem(view, offset)` (source lines 83-160) walks a `DataView` over
the input.  Three JavaScript behaviours matter for faithfulness:

* a `DataView`/`Uint8Array` access past the end throws a `RangeError`;
* when the 5-bit additional-info field is 27-31 the local `value` stays
  `undefined`; subsequent arithmetic on it (`bytesUsed + value`,
  `offset + bytesUsed`) yields `NaN`, a loop bound `i < value` is false,
  and `ToIndex(NaN)` inside a `DataView` read is `0`.  We model a
  possibly-`undefined`/`NaN` quantity as `Option Nat` (`none` = NaN);
* the recursion can nest without bound (NaN offsets can re-read byte 0),
  so the embedding takes a `fuel` argument bounding the recursion depth;
  exhausted fuel is JavaScript's stack-overflow exception.  The
  `DataView` is taken over the whole supplied buffer (`byteOffset` 0),
  the situation of the exported `decode(data)` on a standalone buffer.
-/

/-- Results decoding can produce.  Decoded numbers are split by
provenance: `int` from the major-type-0/1 paths, `float` (a bit
pattern) from the 8-byte float read, `nan` from `-1 - undefined`;
`undef` also arises when an `undefined` length is returned as the
value.  Map entries are kept as pairs in insertion order (JavaScript
coerces keys to property strings; no claim depends on that coercion). -/
inductive DValue where
  | null
  | undef
  | bool (b : Bool)
  | int (n : Int)
  | nan
  | float (bits : Nat)
  | text (utf8 : List Nat)
  | bytes (bs : List Nat)
  | arr (vs : List DValue)
  | map (kvs : List (DValue × DValue))

/-- The `{ value, bytesUsed }` record returned by `decodeItem`;
`bytesUsed` is `none` when the source computes `NaN`. -/
structure DecodeRes where
  value : DValue
  bytesUsed : Option Nat

/-- `ToIndex` of a possibly-NaN offset: `ToIndex(NaN) = 0`. -/
def jsIndex : Option Nat → Nat
  | none => 0
  | some n => n

/-- Addition where `NaN` (`none`) is absorbing. -/
def oadd : Option Nat → Option Nat → Option Nat
  | some a, some b => some (a + b)
  | _, _ => none

/-- Subtraction where `NaN` (`none`) is absorbing (only applied with
minuend ≥ subtrahend in reachable states). -/
def osub : Option Nat → Option Nat → Option Nat
  | some a, some b => some (a - b)
  | _, _ => none

/-- Loop bound `i < value`: `i < undefined` is false, so an `undefined`
count runs zero iterations. -/
def countOf : Option Nat → Nat
  | none => 0
  | some n => n

/-- Major-type-0 result: an `undefined` ladder value is returned as the
value itself. -/
def numOrUndef : Option Nat → DValue
  | none => .undef
  | some n => .int n

/-- Major-type-1 result `-1 - value`: with `value` `undefined` this is
`NaN`. -/
def negOrNaN : Option Nat → DValue
  | none => .nan
  | some n => .int (-1 - (n : Int))

/-- `view.getUint8(offset)`: one byte, `RangeError` past the end. -/
def getUint8 (data : List Nat) (offset : Option Nat) : Except String Nat :=
  match data[jsIndex offset]? with
  | some b => .ok b
  | none => .error "RangeError"

/-- `view.getUint16(offset)`: two bytes big-endian. -/
def getUint16 (data : List Nat) (offset : Option Nat) : Except String Nat :=
  match data[jsIndex offset]?, data[jsIndex offset + 1]? with
  | some b0, some b1 => .ok (b0 * 256 + b1)
  | _, _ => .error "RangeError"

/-- `view.getUint32(offset)`: four bytes big-endian. -/
def getUint32 (data : List Nat) (offset : Option Nat) : Except String Nat :=
  match data[jsIndex offset]?, data[jsIndex offset + 1]?,
        data[jsIndex offset + 2]?, data[jsIndex offset + 3]? with
  | some b0, some b1, some b2, some b3 =>
      .ok (((b0 * 256 + b1) * 256 + b2) * 256 + b3)
  | _, _, _, _ => .error "RangeError"

/-- `view.getFloat64(offset)`: eight bytes big-endian, returned as the
assembled bit pattern. -/
def getFloat64Bits (data : List Nat) (offset : Option Nat) : Except String Nat :=
  if jsIndex offset + 8 ≤ data.length then
    .ok (((data.drop (jsIndex offset)).take 8).foldl (fun acc b => acc * 256 + b) 0)
  else .error "RangeError"

/-- The `case 4` loop of `decodeItem`: decode `count` elements, threading
`arrayOffset`; the per-element call is passed in as `step`. -/
def decodeLoopA (step : Option Nat → Except String DecodeRes) :
    Nat → Option Nat → List DValue → Except String (List DValue × Option Nat)
  | 0, off, acc => .ok (acc.reverse, off)
  | c + 1, off, acc =>
    match step off with
    | .error e => .error e
    | .ok item => decodeLoopA step c (oadd off item.bytesUsed) (item.value :: acc)

/-- The `case 5` loop of `decodeItem`: decode `count` key/value pairs,
threading `mapOffset`. -/
def decodeLoopM (step : Option Nat → Except String DecodeRes) :
    Nat → Option Nat → List (DValue × DValue) →
    Except String (List (DValue × DValue) × Option Nat)
  | 0, off, acc => .ok (acc.reverse, off)
  | c + 1, off, acc =>
    match step off with
    | .error e => .error e
    | .ok key =>
      match step (oadd off key.bytesUsed) with
      | .error e => .error e
      | .ok val =>
        decodeLoopM step c (oadd (oadd off key.bytesUsed) val.bytesUsed)
          ((key.value, val.value) :: acc)

/-- `decodeItem(view, offset)` (source lines 83-160).  The info ladder
runs first (the `info === 0xF4 … 0xF7` tests compare the masked 5-bit
field, which is at most 31, so those four branches can never fire); the
switch on the 3-bit major type follows.  `fuel` bounds the call depth;
running out models JavaScript's stack-overflow exception. -/
def decodeItem : Nat → List Nat → Option Nat → Except String DecodeRes
  | 0, _, _ => .error "RangeError: Maximum call stack size exceeded"
  | fuel + 1, data, offset =>
    match getUint8 data offset with
    | .error e => .error e
    | .ok byte =>
      let majorType := byte / 32
      let info := byte % 32
      let cont : Option Nat → Nat → Except String DecodeRes := fun value? bytesUsed =>
        if majorType = 0 then .ok ⟨numOrUndef value?, some bytesUsed⟩
        else if majorType = 1 then .ok ⟨negOrNaN value?, some bytesUsed⟩
        else if majorType = 2 then
          match value? with
          | some len =>
            if jsIndex (oadd offset (some bytesUsed)) + len ≤ data.length then
              .ok ⟨.bytes ((data.drop (jsIndex (oadd offset (some bytesUsed)))).take len),
                   some (bytesUsed + len)⟩
            else .error "RangeError"
          | none =>
            if jsIndex (oadd offset (some bytesUsed)) ≤ data.length then
              .ok ⟨.bytes (data.drop (jsIndex (oadd offset (some bytesUsed)))), none⟩
            else .error "RangeError"
        else if majorType = 3 then
          match value? with
          | some len =>
            if jsIndex (oadd offset (some bytesUsed)) + len ≤ data.length then
              .ok ⟨.text ((data.drop (jsIndex (oadd offset (some bytesUsed)))).take len),
                   some (bytesUsed + len)⟩
            else .error "RangeError"
          | none =>
            if jsIndex (oadd offset (some bytesUsed)) ≤ data.length then
              .ok ⟨.text (data.drop (jsIndex (oadd offset (some bytesUsed)))), none⟩
            else .error "RangeError"
        else if majorType = 4 then
          match decodeLoopA (decodeItem fuel data) (countOf value?)
              (oadd offset (some bytesUsed)) [] with
          | .error e => .error e
          | .ok r => .ok ⟨.arr r.1, osub r.2 offset⟩
        else if majorType = 5 then
          match decodeLoopM (decodeItem fuel data) (countOf value?)
              (oadd offset (some bytesUsed)) [] with
          | .error e => .error e
          | .ok r => .ok ⟨.map r.1, osub r.2 offset⟩
        else if majorType = 7 then
          if info = 27 then
            match getFloat64Bits data (oadd offset (some 1)) with
            | .error e => .error e
            | .ok bits => .ok ⟨.float bits, some 9⟩
          else .error ("Unsupported CBOR type: " ++ toString majorType)
        else .error ("Unsupported CBOR type: " ++ toString majorType)
      if info < 24 then cont (some info) 1
      else if info = 24 then
        match getUint8 data (oadd offset (some 1)) with
        | .error e => .error e
        | .ok v => cont (some v) 2
      else if info = 25 then
        match getUint16 data (oadd offset (some 1)) with
        | .error e => .error e
        | .ok v => cont (some v) 3
      else if info = 26 then
        match getUint32 data (oadd offset (some 1)) with
        | .error e => .error e
        | .ok v => cont (some v) 5
      else if info = 244 then .ok ⟨.bool false, some 1⟩
      else if info = 245 then .ok ⟨.bool true, some 1⟩
      else if info = 246 then .ok ⟨.null, some 1⟩
      else if info = 247 then .ok ⟨.undef, some 1⟩
      else cont none 1

/-- `decode(data)` (source lines 12-16): decode from offset 0 and return
the value. -/
def decode (fuel : Nat) (data : List Nat) : Except String DValue :=
  match decodeItem fuel data (some 0) with
  | .error e => .error e
  | .ok r => .ok r.value

end CBOR

/-- How a caller's promise settles: JavaScript `resolve(s)` or
`reject(new Error(e))`. -/
inductive Outcome where
  | resolved (s : String)
  | rejected (e : String)
deriving DecidableEq

namespace WebSerialCore

/-!
### `WebSerialCore` (`src/unnamed/part_001`)

The class keeps `responseResolvers`, an array of promise resolvers in
registration order.  We model a resolver by an identifier (`Nat`); the
transaction state is the list of registered resolver ids.
-/

/-- The registration performed by `sendCommand` (source line 112): the
new resolver is pushed at the back of the FIFO queue. -/
def sendCommand (queue : List Nat) (r : Nat) : List Nat := queue ++ [r]

/-- The timeout bound `sendCommand` arms, in milliseconds (source
line 121). -/
def sendCommandTimeoutMs : Nat := 5000

/-- `handleResponse(line)` (source lines 90-98): if any resolver is
waiting, shift the first one off the queue and resolve it with the line;
otherwise the line is dropped. -/
def handleResponse (resolvers : List Nat) (line : String) :
    Option (Nat × Outcome) × List Nat :=
  match resolvers with
  | [] => (none, [])
  | r :: rest => (some (r, Outcome.resolved line), rest)

/-- The timeout callback of `sendCommand` (source lines 115-121): if the
resolver is still queued, splice it out (first occurrence, via
`indexOf`) and resolve — not reject — with the literal string
`'TIMEOUT'`; if it was already consumed, do nothing. -/
def sendCommandOnTimeout (resolvers : List Nat) (r : Nat) :
    Option Outcome × List Nat :=
  if r ∈ resolvers then (some (Outcome.resolved "TIMEOUT"), resolvers.erase r)
  else (none, resolvers)

/-- Repeated `handleResponse` over a sequence of complete lines (the
order `processBuffer` feeds them), collecting which resolver got which
outcome. -/
def deliverAll (resolvers : List Nat) (lines : List String) :
    List (Nat × Outcome) :=
  match lines with
  | [] => []
  | l :: ls =>
    match handleResponse resolvers l with
    | (some d, rest) => d :: deliverAll rest ls
    | (none, rest) => deliverAll rest ls

end WebSerialCore

namespace VDClient

/-!
### `VelocityDriveClient` (`src/js/velocitydrive-client.js`)

Event listeners are string-keyed arrays of callbacks; we track the
`'dataReceived'` listener list as a list of handler ids, and the
request-side session state (`yangCatalogId` plus the messages handed to
`sendRaw`).
-/

/-- `on(event, cb)` (source lines 31-36): append the callback (`on` is a
reserved token in Lean, hence the name). -/
def onEvent (listeners : List Nat) (h : Nat) : List Nat := listeners ++ [h]

/-- `off(event, cb)` (source lines 297-305): remove the first occurrence. -/
def offEvent (listeners : List Nat) (h : Nat) : List Nat := listeners.erase h

/-- The timeout bound armed by `yangGet`/`yangSet`/`yangDelete`, in
milliseconds (source lines 234-236, 259-261, 282-284). -/
def requestTimeoutMs : Nat := 10000

/-- The timeout callback of `yangGet`/`yangSet`/`yangDelete` (source
lines 234-236): reject with `'Request timeout'`; the callback does not
touch the listener table, so the registered handler stays in it. -/
def requestTimeoutFires (listeners : List Nat) : Outcome × List Nat :=
  (Outcome.rejected "Request timeout", listeners)

/-- A request message as handed to the (out-of-`src/`) protocol encoder.
Modelled from the spec: `protocol.createCoAPMessage(method, path,
payload?)` lives in `mup1-protocol.js`, which is not under `src/`; the
spec (§4.2) says it carries method, target path and an opaque optional
body, which is all the gating claims need. -/
structure CoapMsg where
  method : String
  path : String
  payload : Option (List Nat)
deriving DecidableEq

/-- The client state the YANG operations read and write: the catalog
checksum id (`null` until `yangCatalogReceived`) and the trace of
messages handed to `sendRaw`, in order. -/
structure ClientState where
  yangCatalogId : Option String
  sent : List CoapMsg
deriving DecidableEq

/-- JavaScript's falsiness test `!this.yangCatalogId` on a
string-or-null field: `null`/`undefined` and the empty string are
falsy. -/
def jsFalsy : Option String → Bool
  | none => true
  | some s => s = ""

/-- `sendRaw(data)` (source lines 211-222) hands one message to the
transport. -/
def sendRaw (st : ClientState) (m : CoapMsg) : ClientState :=
  { st with sent := st.sent ++ [m] }

/-- `yangGet(path)` (source lines 225-246): guard on the catalog id
before anything is built or sent; on success a GET message is encoded
and handed to the transport. -/
def yangGet (st : ClientState) (path : String) :
    Except String Unit × ClientState :=
  if jsFalsy st.yangCatalogId then (.error "YANG catalog not loaded", st)
  else (.ok (), sendRaw st ⟨"GET", path, none⟩)

/-- `yangSet(path, value)` (source lines 248-271): same guard first; only
past it is the value CBOR-encoded and a PUT message sent. -/
def yangSet (st : ClientState) (path : String) (value : CBOR.Value) :
    Except String Unit × ClientState :=
  if jsFalsy st.yangCatalogId then (.error "YANG catalog not loaded", st)
  else (.ok (), sendRaw st ⟨"PUT", path, some (CBOR.encode value)⟩)

/-- `yangDelete(path)` (source lines 273-294): same guard first. -/
def yangDelete (st : ClientState) (path : String) :
    Except String Unit × ClientState :=
  if jsFalsy st.yangCatalogId then (.error "YANG catalog not loaded", st)
  else (.ok (), sendRaw st ⟨"DELETE", path, none⟩)

/-- A decoded CoAP response as `handleCoAPFrame` consumes it.  Modelled
from the spec: `CoAPMessage.decode` (in `mup1-protocol.js`, not under
`src/`) yields a message with a numeric id, a code and an optional raw
payload (spec §4.2 — the body is carried opaquely). -/
structure Coap where
  messageId : Nat
  code : Nat
  payload : Option (List Nat)

/-- Events the client emits while dispatching responses. -/
inductive ClientEvent where
  | yangCatalogReceived (id : String)
  | dataReceived (messageId : Nat) (code : Nat) (data : CBOR.DValue)

/-- Hex digit character (`b.toString(16)` alphabet). -/
def hexChar (n : Nat) : Char :=
  if n < 10 then Char.ofNat (48 + n) else Char.ofNat (87 + n)

/-- `b.toString(16).padStart(2, '0')` for a byte. -/
def byteHex (b : Nat) : String :=
  String.mk [hexChar (b / 16 % 16), hexChar (b % 16)]

/-- `extractCatalogId(payload)` (source lines 203-208): hex rendering of
the payload bytes. -/
def extractCatalogId (payload : List Nat) : String :=
  String.join (payload.map byteHex)

/-- The UTF-8 bytes of the property name `'checksum'`. -/
def checksumKey : List Nat := [99, 104, 101, 99, 107, 115, 117, 109]

/-- `isYangCatalogResponse(data)` (source lines 198-201): a truthy object
with a `'checksum'` property.  Of the decodable values only a map can
have one; the model matches a text key whose bytes spell `checksum`.
JavaScript coerces every decoded map key to a property string, so an
exotic non-string key whose coercion is also `"checksum"` (for instance
the one-element array key `['checksum']`, which `toString` joins to the
same text) would set the property too; the model deliberately covers
only the text-key form, and no judged claim turns on how such a frame
is classified. -/
def isYangCatalogResponse : CBOR.DValue → Bool
  | .map kvs => kvs.any (fun kv =>
      match kv.1 with
      | .text k => k = checksumKey
      | _ => false)
  | _ => false

/-- `handleCoAPFrame(frame)` (source lines 157-176): decode the CBOR
payload — any decode exception propagates to the caller — then either
record the catalog id or emit `dataReceived`.  Frames without a decoded
message or payload are ignored. -/
def handleCoAPFrame (fuel : Nat) (coap : Option Coap) :
    Except String (Option ClientEvent) :=
  match coap with
  | none => .ok none
  | some c =>
    match c.payload with
    | none => .ok none
    | some payload =>
      match CBOR.decode fuel payload with
      | .error e => .error e
      | .ok decoded =>
        if isYangCatalogResponse decoded then
          .ok (some (.yangCatalogReceived (extractCatalogId payload)))
        else
          .ok (some (.dataReceived c.messageId c.code decoded))

/-- The `for (const frame of frames)` loop of `handleData` (source lines
150-153): frames are dispatched in order; an exception aborts the loop,
dropping the rest of the batch.  Returns the events emitted before any
failure together with the escaping error. -/
def handleFrames (fuel : Nat) : List (Option Coap) →
    List ClientEvent × Option String
  | [] => ([], none)
  | f :: fs =>
    match handleCoAPFrame fuel f with
    | .error e => ([], some e)
    | .ok ev =>
      match handleFrames fuel fs with
      | (evs, err) => ((ev.toList ++ evs), err)

/-- `readLoop()` (source lines 106-127) applied to the whole incoming
stream, one entry per received chunk (each given as the frames the
out-of-`src/` `protocol.processData` extracts from it).  The inner
`while (true)` dispatches chunk after chunk through `handleData`; an
exception lands in the `catch`, which emits an `'error'` event and then
executes `break` — and that `break` belongs to the **outer**
`while (this.port.readable && this.connected)` loop, so the read loop
returns and no later chunk is ever processed.  Result: events emitted,
plus the emitted error if the loop died. -/
def readLoop (fuel : Nat) : List (List (Option Coap)) →
    List ClientEvent × Option String
  | [] => ([], none)
  | chunk :: rest =>
    match handleFrames fuel chunk with
    | (evs, none) =>
      match readLoop fuel rest with
      | (evs2, err) => (evs ++ evs2, err)
    | (evs, some e) => (evs, some e)

end VDClient

/-! ## Claims -/

/-- Helper: `encodeUnsigned` appends nothing once the value exceeds every
width branch. -/
theorem encodeUnsigned_big (v mt : Nat) (buffer : List Nat)
    (h : 4294967296 ≤ v) : CBOR.encodeUnsigned v mt buffer = buffer := by
  unfold CBOR.encodeUnsigned
  rw [if_neg (by omega), if_neg (by omega), if_neg (by omega), if_neg (by omega)]

/-- The magnitude handed to `encodeUnsigned` by the integer branch of
`encodeItem`: `n` for `n ≥ 0`, `-n - 1` for `n < 0`. -/
def CBOR.intMagnitude (bits : Nat) : Nat :=
  if 0 ≤ CBOR.toInt bits then (CBOR.toInt bits).toNat
  else (-(CBOR.toInt bits) - 1).toNat

/-- C1: the spec's round-trip property `decode(encode v) = v` fails on
the code for every simple value.  `encode` emits 0xF4-0xF7 for
false/true/null/undefined, but `decodeItem` masks the tag byte to its
low 5 bits (`info = byte & 0x1F ≤ 31`) *before* comparing it with
0xF4-0xF7, so those decoder branches are dead and decoding throws
`Unsupported CBOR type: 7`.  The last conjunct shows this at every
recursion-depth budget, i.e. the failure is not a fuel artefact. -/
theorem C1_value_roundtrip_code_bug :
    CBOR.encode (CBOR.Value.bool true) = [245] ∧
    CBOR.decode 8 (CBOR.encode (CBOR.Value.bool true)) =
      .error "Unsupported CBOR type: 7" ∧
    CBOR.decode 8 (CBOR.encode (CBOR.Value.bool false)) =
      .error "Unsupported CBOR type: 7" ∧
    CBOR.decode 8 (CBOR.encode CBOR.Value.null) =
      .error "Unsupported CBOR type: 7" ∧
    CBOR.decode 8 (CBOR.encode CBOR.Value.undef) =
      .error "Unsupported CBOR type: 7" ∧
    (∀ fuel : Nat, CBOR.decode (fuel + 1) (CBOR.encode (CBOR.Value.bool true)) =
      .error "Unsupported CBOR type: 7") :=
  ⟨rfl, rfl, rfl, rfl, rfl, fun _ => rfl⟩

/-- C2 counterexample: with two requests outstanding (resolver 0
registered first, then resolver 1) and the responses delivered in
reverse order of issuance, `WebSerialCore.handleResponse` hands the
first arriving line to the first-registered waiter: caller 0 is resolved
with caller 1's response and vice versa, refuting token-keyed
correlation. -/
theorem C2_token_correlation_counterexample :
    WebSerialCore.sendCommand (WebSerialCore.sendCommand [] 0) 1 = [0, 1] ∧
    WebSerialCore.deliverAll [0, 1] ["response-to-1", "response-to-0"] =
      [(0, Outcome.resolved "response-to-1"),
       (1, Outcome.resolved "response-to-0")] ∧
    WebSerialCore.deliverAll [0, 1] ["response-to-1", "response-to-0"] ≠
      [(0, Outcome.resolved "response-to-0"),
       (1, Outcome.resolved "response-to-1")] :=
  ⟨rfl, rfl, by decide⟩

/-- C2 amended: response correlation is FIFO by registration order, not
token-keyed — the i-th arriving response line always resolves the i-th
registered waiter, whatever was requested. -/
theorem C2_fifo_correlation (resolvers : List Nat) (lines : List String) :
    WebSerialCore.deliverAll resolvers lines =
      resolvers.zip (lines.map Outcome.resolved) := by
  induction lines generalizing resolvers with
  | nil => cases resolvers <;> rfl
  | cons l ls ih =>
    cases resolvers with
    | nil =>
      simp [WebSerialCore.deliverAll, WebSerialCore.handleResponse, ih]
    | cons r rs =>
      simp [WebSerialCore.deliverAll, WebSerialCore.handleResponse, ih]

/-- C3 counterexample: two chunks arrive, the first carrying a frame
whose CBOR payload `[0xF6]` fails to decode, the second a valid frame
(integer 5).  The claim requires the later valid frame still to be
dispatched; instead the read loop dies on the first chunk — the event
list is empty, the error is emitted, and the valid frame is never
processed. -/
theorem C3_decode_error_fatal_counterexample :
    VDClient.readLoop 8 [[some ⟨1, 69, some [246]⟩], [some ⟨2, 69, some [5]⟩]] =
      ([], some "Unsupported CBOR type: 7") ∧
    VDClient.readLoop 8 [[some ⟨2, 69, some [5]⟩]] =
      ([VDClient.ClientEvent.dataReceived 2 69 (CBOR.DValue.int 5)], none) :=
  ⟨rfl, rfl⟩

/-- C3 amended: a frame payload that fails to decode is fatal to the
receive loop: the exception reaches `readLoop`'s catch, the error is
emitted, and the `break` exits the outer `while`, so the rest of the
failing batch and every later chunk go unprocessed (the result is
independent of whatever would have arrived next). -/
theorem C3_decode_error_aborts_readLoop (fuel : Nat)
    (chunk : List (Option VDClient.Coap))
    (rest rest' : List (List (Option VDClient.Coap))) (e : String)
    (h : (VDClient.handleFrames fuel chunk).2 = some e) :
    VDClient.readLoop fuel (chunk :: rest) =
      ((VDClient.handleFrames fuel chunk).1, some e) ∧
    VDClient.readLoop fuel (chunk :: rest) =
      VDClient.readLoop fuel (chunk :: rest') := by
  rcases hfr : VDClient.handleFrames fuel chunk with ⟨evs, err⟩
  rw [hfr] at h
  simp only at h
  subst h
  constructor <;> simp [VDClient.readLoop, hfr]

/-- Witness for C3: the failing batch from the counterexample, with the
hypotheses discharged concretely. -/
theorem C3_decode_error_aborts_readLoop_witness :
    (VDClient.handleFrames 8 [some ⟨1, 69, some [246]⟩]).2 =
      some "Unsupported CBOR type: 7" ∧
    (VDClient.readLoop 8 [[some ⟨1, 69, some [246]⟩], [some ⟨2, 69, some [5]⟩]] =
      ((VDClient.handleFrames 8 [some ⟨1, 69, some [246]⟩]).1,
        some "Unsupported CBOR type: 7") ∧
     VDClient.readLoop 8 [[some ⟨1, 69, some [246]⟩], [some ⟨2, 69, some [5]⟩]] =
      VDClient.readLoop 8 [[some ⟨1, 69, some [246]⟩]]) :=
  ⟨rfl, C3_decode_error_aborts_readLoop 8 [some ⟨1, 69, some [246]⟩]
    [[some ⟨2, 69, some [5]⟩]] [] "Unsupported CBOR type: 7" rfl⟩

/-- C4 counterexample: in JavaScript the float value `5.0` *is* the
number with bit pattern 0x4014000000000000, and `Number.isInteger` is
true of it, so `encodeItem` emits the compact 1-byte integer form `[5]`
— not the 9-byte double form the claim demands. -/
theorem C4_float_five_counterexample :
    CBOR.ofNat 5 = 0x4014000000000000 ∧
    CBOR.isInteger 0x4014000000000000 = true ∧
    CBOR.encodeItem (CBOR.Value.num 0x4014000000000000) [] = [5] ∧
    (CBOR.encodeItem (CBOR.Value.num 0x4014000000000000) []).length = 1 :=
  ⟨by decide, by decide, by decide, by decide⟩

/-- C4 amended: a number that `Number.isInteger` rejects always encodes
as the fixed 9-byte form — control byte 0xFB then the eight big-endian
binary64 bytes; but a numerically integral float such as 5.0 is the
same JavaScript value as the integer 5 and takes the compact integer
form instead. -/
theorem C4_noninteger_nine_bytes (bits : Nat) (buffer : List Nat)
    (h : CBOR.isInteger bits = false) :
    CBOR.encodeItem (CBOR.Value.num bits) buffer =
      buffer ++ 251 :: CBOR.float64Bytes bits ∧
    (251 :: CBOR.float64Bytes bits).length = 9 := by
  refine ⟨?_, rfl⟩
  simp [CBOR.encodeItem, h]

/-- Witness for C4 at the non-integer 0.5 (pattern 0x3FE0000000000000). -/
theorem C4_noninteger_nine_bytes_witness :
    CBOR.isInteger 0x3FE0000000000000 = false ∧
    (CBOR.encodeItem (CBOR.Value.num 0x3FE0000000000000) [] =
      [] ++ 251 :: CBOR.float64Bytes 0x3FE0000000000000 ∧
     (251 :: CBOR.float64Bytes 0x3FE0000000000000).length = 9) :=
  ⟨by decide, C4_noninteger_nine_bytes 0x3FE0000000000000 [] (by decide)⟩

/-- C5: for every representable magnitude (below `2^32`) the encoder
emits the width-minimal form — 1 head byte inline for 0-23, otherwise a
head byte plus 1, 2 or 4 big-endian magnitude bytes — and the four
concrete boundary integers of the claim encode exactly as stated
(23 inline; 24 in the 1-byte form 0x18 24; 256 as 0x19 01 00; 65536 as
0x1A 00 01 00 00). -/
theorem C5_width_minimality (n majorType : Nat) (buffer : List Nat)
    (h : n < 4294967296) :
    (CBOR.encodeUnsigned n majorType buffer).length =
      buffer.length +
        (if n < 24 then 1 else if n < 256 then 2
         else if n < 65536 then 3 else 5) ∧
    CBOR.encodeItem (CBOR.Value.num (CBOR.ofNat 23)) [] = [23] ∧
    CBOR.encodeItem (CBOR.Value.num (CBOR.ofNat 24)) [] = [24, 24] ∧
    CBOR.encodeItem (CBOR.Value.num (CBOR.ofNat 256)) [] = [25, 1, 0] ∧
    CBOR.encodeItem (CBOR.Value.num (CBOR.ofNat 65536)) [] = [26, 0, 1, 0, 0] := by
  refine ⟨?_, by decide, by decide, by decide, by decide⟩
  unfold CBOR.encodeUnsigned
  split_ifs <;> simp_all

/-- Witness for C5 at n = 300 (2-byte form). -/
theorem C5_width_minimality_witness :
    (300 : Nat) < 4294967296 ∧
    ((CBOR.encodeUnsigned 300 0 []).length =
      ([] : List Nat).length +
        (if (300 : Nat) < 24 then 1 else if (300 : Nat) < 256 then 2
         else if (300 : Nat) < 65536 then 3 else 5) ∧
     CBOR.encodeItem (CBOR.Value.num (CBOR.ofNat 23)) [] = [23] ∧
     CBOR.encodeItem (CBOR.Value.num (CBOR.ofNat 24)) [] = [24, 24] ∧
     CBOR.encodeItem (CBOR.Value.num (CBOR.ofNat 256)) [] = [25, 1, 0] ∧
     CBOR.encodeItem (CBOR.Value.num (CBOR.ofNat 65536)) [] = [26, 0, 1, 0, 0]) :=
  ⟨by decide, C5_width_minimality 300 0 [] (by decide)⟩

/-- C6 counterexample: a request registers its `'dataReceived'` handler
(id 7); when the 10-second timeout fires with no response the promise is
rejected with `Request timeout`, but the timeout callback never calls
`off`, so the listener table afterwards *still contains* the handler —
the claim's "no longer contains the timed-out transaction" fails.  On
the `WebSerialCore` path the other half of the claim fails instead: the
5-second timeout does clear the queue but *resolves* with the string
`'TIMEOUT'` rather than failing with an error. -/
theorem C6_timeout_counterexample :
    VDClient.onEvent [] 7 = [7] ∧
    VDClient.requestTimeoutFires [7] =
      (Outcome.rejected "Request timeout", [7]) ∧
    7 ∈ (VDClient.requestTimeoutFires [7]).2 ∧
    WebSerialCore.sendCommandOnTimeout [3] 3 =
      (some (Outcome.resolved "TIMEOUT"), []) :=
  ⟨rfl, rfl, by decide, by decide⟩

/-- C6 amended: after the fixed bound (10000 ms) an unanswered
`yangGet`-style request is rejected with `Request timeout`, but its
handler registration survives in the listener table; `WebSerialCore`'s
`sendCommand` does remove its resolver from the pending queue after its
5000 ms bound, but resolves with the in-band string `'TIMEOUT'` instead
of failing. -/
theorem C6_timeout_behavior (listeners : List Nat) (h : Nat)
    (queue : List Nat) (r : Nat) (hmem : h ∈ listeners) (hq : r ∈ queue) :
    VDClient.requestTimeoutMs = 10000 ∧
    VDClient.requestTimeoutFires listeners =
      (Outcome.rejected "Request timeout", listeners) ∧
    h ∈ (VDClient.requestTimeoutFires listeners).2 ∧
    WebSerialCore.sendCommandTimeoutMs = 5000 ∧
    WebSerialCore.sendCommandOnTimeout queue r =
      (some (Outcome.resolved "TIMEOUT"), queue.erase r) :=
  ⟨rfl, rfl, hmem, rfl, by simp [WebSerialCore.sendCommandOnTimeout, hq]⟩

/-- Witness for C6 with handler 7 registered and resolver 3 queued. -/
theorem C6_timeout_behavior_witness :
    (7 : Nat) ∈ [7] ∧ (3 : Nat) ∈ [3] ∧
    (VDClient.requestTimeoutMs = 10000 ∧
     VDClient.requestTimeoutFires [7] =
       (Outcome.rejected "Request timeout", [7]) ∧
     7 ∈ (VDClient.requestTimeoutFires [7]).2 ∧
     WebSerialCore.sendCommandTimeoutMs = 5000 ∧
     WebSerialCore.sendCommandOnTimeout [3] 3 =
       (some (Outcome.resolved "TIMEOUT"), ([3] : List Nat).erase 3)) :=
  ⟨by decide, by decide,
   C6_timeout_behavior [7] 7 [3] 3 (by decide) (by decide)⟩

/-- C7: while the catalog checksum has not been retrieved
(`yangCatalogId` unset, i.e. still `null`), every `yangGet`, `yangSet`
and `yangDelete` call fails immediately with `YANG catalog not loaded`,
the state is returned unchanged, and in particular nothing is appended
to the trace of messages handed to the transport. -/
theorem C7_session_gating (st : VDClient.ClientState) (path : String)
    (v : CBOR.Value) (h : VDClient.jsFalsy st.yangCatalogId = true) :
    VDClient.yangGet st path = (.error "YANG catalog not loaded", st) ∧
    VDClient.yangSet st path v = (.error "YANG catalog not loaded", st) ∧
    VDClient.yangDelete st path = (.error "YANG catalog not loaded", st) ∧
    (VDClient.yangGet st path).2.sent = st.sent ∧
    (VDClient.yangSet st path v).2.sent = st.sent ∧
    (VDClient.yangDelete st path).2.sent = st.sent := by
  simp [VDClient.yangGet, VDClient.yangSet, VDClient.yangDelete, h]

/-- Witness for C7: a freshly connected client (no catalog id, nothing
sent yet). -/
theorem C7_session_gating_witness :
    VDClient.jsFalsy (VDClient.ClientState.mk none []).yangCatalogId = true ∧
    (VDClient.yangGet ⟨none, []⟩ "/ietf-interfaces:interfaces" =
       (.error "YANG catalog not loaded", ⟨none, []⟩) ∧
     VDClient.yangSet ⟨none, []⟩ "/ietf-interfaces:interfaces" CBOR.Value.null =
       (.error "YANG catalog not loaded", ⟨none, []⟩) ∧
     VDClient.yangDelete ⟨none, []⟩ "/ietf-interfaces:interfaces" =
       (.error "YANG catalog not loaded", ⟨none, []⟩) ∧
     (VDClient.yangGet ⟨none, []⟩ "/ietf-interfaces:interfaces").2.sent =
       (VDClient.ClientState.mk none []).sent ∧
     (VDClient.yangSet ⟨none, []⟩ "/ietf-interfaces:interfaces"
        CBOR.Value.null).2.sent = (VDClient.ClientState.mk none []).sent ∧
     (VDClient.yangDelete ⟨none, []⟩ "/ietf-interfaces:interfaces").2.sent =
       (VDClient.ClientState.mk none []).sent) :=
  ⟨rfl, C7_session_gating ⟨none, []⟩ "/ietf-interfaces:interfaces"
    CBOR.Value.null rfl⟩

-- once-NaN-always-NaN
theorem decodeLoopA_none_end (step : Option Nat → Except String CBOR.DecodeRes) :
    ∀ (c : Nat) (acc : List CBOR.DValue) (p : List CBOR.DValue × Option Nat),
      CBOR.decodeLoopA step c none acc = .ok p → p.2 = none := by
  intro c
  induction c with
  | zero => intro acc p h; cases h; rfl
  | succ c ih =>
    intro acc p h
    simp only [CBOR.decodeLoopA] at h
    cases hs : step none with
    | error e => rw [hs] at h; cases h
    | ok r => rw [hs] at h; exact ih _ _ h

theorem decodeLoopM_none_end (step : Option Nat → Except String CBOR.DecodeRes) :
    ∀ (c : Nat) (acc : List (CBOR.DValue × CBOR.DValue))
      (p : List (CBOR.DValue × CBOR.DValue) × Option Nat),
      CBOR.decodeLoopM step c none acc = .ok p → p.2 = none := by
  intro c
  induction c with
  | zero => intro acc p h; cases h; rfl
  | succ c ih =>
    intro acc p h
    simp only [CBOR.decodeLoopM] at h
    split at h
    · cases h
    · split at h
      · cases h
      · exact ih _ _ h

-- any offset at or past the end errors, at every fuel
theorem decodeItem_oob_any (fuel : Nat) (data : List Nat) (off : Nat)
    (h : data.length ≤ off) :
    ∃ e, CBOR.decodeItem fuel data (some off) = .error e := by
  cases fuel with
  | zero => exact ⟨_, rfl⟩
  | succ fuel =>
    exact ⟨"RangeError", by
      simp [CBOR.decodeItem, CBOR.getUint8, CBOR.jsIndex, List.getElem?_eq_none h]⟩

-- loop safety, parameterized over the per-element decoder
theorem decodeLoopA_consumes (step : Option Nat → Except String CBOR.DecodeRes)
    (len : Nat)
    (hstep : ∀ o r, step (some o) = .ok r →
      o < len ∧ (r.bytesUsed = none ∨ ∃ b, r.bytesUsed = some b ∧ 1 ≤ b ∧ o + b ≤ len)) :
    ∀ (c s : Nat) (acc : List CBOR.DValue) (p : List CBOR.DValue × Option Nat),
      s ≤ len → CBOR.decodeLoopA step c (some s) acc = .ok p →
      p.2 = none ∨ ∃ o2, p.2 = some o2 ∧ s ≤ o2 ∧ o2 ≤ len := by
  intro c
  induction c with
  | zero =>
    intro s acc p hs h
    cases h
    exact Or.inr ⟨s, rfl, le_refl s, hs⟩
  | succ c ih =>
    intro s acc p hs h
    simp only [CBOR.decodeLoopA] at h
    split at h
    · cases h
    · rename_i r hr
      rcases (hstep s r hr).2 with hn | ⟨b, hb, hb1, hble⟩
      · rw [hn] at h
        exact Or.inl (decodeLoopA_none_end step c _ p h)
      · rw [hb] at h
        rcases ih (s + b) _ p hble h with h2 | ⟨o2, ho2, hso2, hle⟩
        · exact Or.inl h2
        · exact Or.inr ⟨o2, ho2, le_trans (Nat.le_add_right s b) hso2, hle⟩

theorem decodeLoopM_consumes (step : Option Nat → Except String CBOR.DecodeRes)
    (len : Nat)
    (hstep : ∀ o r, step (some o) = .ok r →
      o < len ∧ (r.bytesUsed = none ∨ ∃ b, r.bytesUsed = some b ∧ 1 ≤ b ∧ o + b ≤ len)) :
    ∀ (c s : Nat) (acc : List (CBOR.DValue × CBOR.DValue))
      (p : List (CBOR.DValue × CBOR.DValue) × Option Nat),
      s ≤ len → CBOR.decodeLoopM step c (some s) acc = .ok p →
      p.2 = none ∨ ∃ o2, p.2 = some o2 ∧ s ≤ o2 ∧ o2 ≤ len := by
  intro c
  induction c with
  | zero =>
    intro s acc p hs h
    cases h
    exact Or.inr ⟨s, rfl, le_refl s, hs⟩
  | succ c ih =>
    intro s acc p hs h
    simp only [CBOR.decodeLoopM] at h
    split at h
    · cases h
    · rename_i rk hk
      split at h
      · cases h
      · rename_i rv hv
        rcases (hstep s rk hk).2 with hkn | ⟨bk, hbk, hbk1, hbkle⟩
        · rw [hkn] at h
          exact Or.inl (decodeLoopM_none_end step c _ p h)
        · rw [hbk] at h
          rw [hbk] at hv
          rcases (hstep _ rv hv).2 with hvn | ⟨bv, hbv, hbv1, hbvle⟩
          · rw [hvn] at h
            exact Or.inl (decodeLoopM_none_end step c _ p h)
          · rw [hbv] at h
            rcases ih (s + bk + bv) _ p hbvle h with h2 | ⟨o2, ho2, hso2, hle⟩
            · exact Or.inl h2
            · refine Or.inr ⟨o2, ho2, ?_, hle⟩
              omega

-- bounds extracted from successful DataView reads
theorem getUint8_lt (data : List Nat) (o : Option Nat) (v : Nat)
    (h : CBOR.getUint8 data o = .ok v) : CBOR.jsIndex o < data.length := by
  unfold CBOR.getUint8 at h
  split at h
  · rename_i b hb
    exact (List.getElem?_eq_some_iff.mp hb).1
  · cases h

theorem getUint16_lt (data : List Nat) (o : Option Nat) (v : Nat)
    (h : CBOR.getUint16 data o = .ok v) : CBOR.jsIndex o + 1 < data.length := by
  unfold CBOR.getUint16 at h
  split at h
  · rename_i b0 b1 hb0 hb1
    exact (List.getElem?_eq_some_iff.mp hb1).1
  · cases h

theorem getUint32_lt (data : List Nat) (o : Option Nat) (v : Nat)
    (h : CBOR.getUint32 data o = .ok v) : CBOR.jsIndex o + 3 < data.length := by
  unfold CBOR.getUint32 at h
  split at h
  · rename_i b0 b1 b2 b3 hb0 hb1 hb2 hb3
    exact (List.getElem?_eq_some_iff.mp hb3).1
  · cases h

theorem getFloat64Bits_le (data : List Nat) (o : Option Nat) (bits : Nat)
    (h : CBOR.getFloat64Bits data o = .ok bits) :
    CBOR.jsIndex o + 8 ≤ data.length := by
  unfold CBOR.getFloat64Bits at h
  split at h
  · assumption
  · cases h


/-- One-step characterization of `decodeItem` at positive fuel, with the
local `cont` of the definition inlined at each of its five call sites;
holds by definitional unfolding and is the rewriting vehicle for the
symbolic decoder lemmas below (rewriting with the recursive equation
directly makes `simp` loop). -/
theorem decodeItem_succ_eq (fuel : Nat) (data : List Nat) (offset : Option Nat) :
    CBOR.decodeItem (fuel + 1) data offset =
      (match CBOR.getUint8 data offset with
      | .error e => .error e
      | .ok byte =>
        if byte % 32 < 24 then
          if byte / 32 = 0 then
            Except.ok ⟨CBOR.numOrUndef (some (byte % 32)), some 1⟩
          else if byte / 32 = 1 then
            Except.ok ⟨CBOR.negOrNaN (some (byte % 32)), some 1⟩
          else if byte / 32 = 2 then
            match (some (byte % 32)) with
            | some len =>
              if CBOR.jsIndex (CBOR.oadd offset (some 1)) + len ≤ data.length then
                Except.ok ⟨.bytes ((data.drop (CBOR.jsIndex (CBOR.oadd offset (some 1)))).take len),
                     some (1 + len)⟩
              else Except.error "RangeError"
            | none =>
              if CBOR.jsIndex (CBOR.oadd offset (some 1)) ≤ data.length then
                Except.ok ⟨.bytes (data.drop (CBOR.jsIndex (CBOR.oadd offset (some 1)))), none⟩
              else Except.error "RangeError"
          else if byte / 32 = 3 then
            match (some (byte % 32)) with
            | some len =>
              if CBOR.jsIndex (CBOR.oadd offset (some 1)) + len ≤ data.length then
                Except.ok ⟨.text ((data.drop (CBOR.jsIndex (CBOR.oadd offset (some 1)))).take len),
                     some (1 + len)⟩
              else Except.error "RangeError"
            | none =>
              if CBOR.jsIndex (CBOR.oadd offset (some 1)) ≤ data.length then
                Except.ok ⟨.text (data.drop (CBOR.jsIndex (CBOR.oadd offset (some 1)))), none⟩
              else Except.error "RangeError"
          else if byte / 32 = 4 then
            match CBOR.decodeLoopA (CBOR.decodeItem fuel data) (CBOR.countOf (some (byte % 32)))
                (CBOR.oadd offset (some 1)) [] with
            | .error e => .error e
            | .ok r2 => .ok ⟨.arr r2.1, CBOR.osub r2.2 offset⟩
          else if byte / 32 = 5 then
            match CBOR.decodeLoopM (CBOR.decodeItem fuel data) (CBOR.countOf (some (byte % 32)))
                (CBOR.oadd offset (some 1)) [] with
            | .error e => .error e
            | .ok r2 => .ok ⟨.map r2.1, CBOR.osub r2.2 offset⟩
          else if byte / 32 = 7 then
            if byte % 32 = 27 then
              match CBOR.getFloat64Bits data (CBOR.oadd offset (some 1)) with
              | .error e => .error e
              | .ok bits => .ok ⟨.float bits, some 9⟩
            else .error ("Unsupported CBOR type: " ++ toString (byte / 32))
          else .error ("Unsupported CBOR type: " ++ toString (byte / 32))
        else if byte % 32 = 24 then
          match CBOR.getUint8 data (CBOR.oadd offset (some 1)) with
          | .error e => .error e
          | .ok v =>
              if byte / 32 = 0 then
                Except.ok ⟨CBOR.numOrUndef (some v), some 2⟩
              else if byte / 32 = 1 then
                Except.ok ⟨CBOR.negOrNaN (some v), some 2⟩
              else if byte / 32 = 2 then
                match (some v) with
                | some len =>
                  if CBOR.jsIndex (CBOR.oadd offset (some 2)) + len ≤ data.length then
                    Except.ok ⟨.bytes ((data.drop (CBOR.jsIndex (CBOR.oadd offset (some 2)))).take len),
                         some (2 + len)⟩
                  else Except.error "RangeError"
                | none =>
                  if CBOR.jsIndex (CBOR.oadd offset (some 2)) ≤ data.length then
                    Except.ok ⟨.bytes (data.drop (CBOR.jsIndex (CBOR.oadd offset (some 2)))), none⟩
                  else Except.error "RangeError"
              else if byte / 32 = 3 then
                match (some v) with
                | some len =>
                  if CBOR.jsIndex (CBOR.oadd offset (some 2)) + len ≤ data.length then
                    Except.ok ⟨.text ((data.drop (CBOR.jsIndex (CBOR.oadd offset (some 2)))).take len),
                         some (2 + len)⟩
                  else Except.error "RangeError"
                | none =>
                  if CBOR.jsIndex (CBOR.oadd offset (some 2)) ≤ data.length then
                    Except.ok ⟨.text (data.drop (CBOR.jsIndex (CBOR.oadd offset (some 2)))), none⟩
                  else Except.error "RangeError"
              else if byte / 32 = 4 then
                match CBOR.decodeLoopA (CBOR.decodeItem fuel data) (CBOR.countOf (some v))
                    (CBOR.oadd offset (some 2)) [] with
                | .error e => .error e
                | .ok r2 => .ok ⟨.arr r2.1, CBOR.osub r2.2 offset⟩
              else if byte / 32 = 5 then
                match CBOR.decodeLoopM (CBOR.decodeItem fuel data) (CBOR.countOf (some v))
                    (CBOR.oadd offset (some 2)) [] with
                | .error e => .error e
                | .ok r2 => .ok ⟨.map r2.1, CBOR.osub r2.2 offset⟩
              else if byte / 32 = 7 then
                if byte % 32 = 27 then
                  match CBOR.getFloat64Bits data (CBOR.oadd offset (some 1)) with
                  | .error e => .error e
                  | .ok bits => .ok ⟨.float bits, some 9⟩
                else .error ("Unsupported CBOR type: " ++ toString (byte / 32))
              else .error ("Unsupported CBOR type: " ++ toString (byte / 32))
        else if byte % 32 = 25 then
          match CBOR.getUint16 data (CBOR.oadd offset (some 1)) with
          | .error e => .error e
          | .ok v =>
              if byte / 32 = 0 then
                Except.ok ⟨CBOR.numOrUndef (some v), some 3⟩
              else if byte / 32 = 1 then
                Except.ok ⟨CBOR.negOrNaN (some v), some 3⟩
              else if byte / 32 = 2 then
                match (some v) with
                | some len =>
                  if CBOR.jsIndex (CBOR.oadd offset (some 3)) + len ≤ data.length then
                    Except.ok ⟨.bytes ((data.drop (CBOR.jsIndex (CBOR.oadd offset (some 3)))).take len),
                         some (3 + len)⟩
                  else Except.error "RangeError"
                | none =>
                  if CBOR.jsIndex (CBOR.oadd offset (some 3)) ≤ data.length then
                    Except.ok ⟨.bytes (data.drop (CBOR.jsIndex (CBOR.oadd offset (some 3)))), none⟩
                  else Except.error "RangeError"
              else if byte / 32 = 3 then
                match (some v) with
                | some len =>
                  if CBOR.jsIndex (CBOR.oadd offset (some 3)) + len ≤ data.length then
                    Except.ok ⟨.text ((data.drop (CBOR.jsIndex (CBOR.oadd offset (some 3)))).take len),
                         some (3 + len)⟩
                  else Except.error "RangeError"
                | none =>
                  if CBOR.jsIndex (CBOR.oadd offset (some 3)) ≤ data.length then
                    Except.ok ⟨.text (data.drop (CBOR.jsIndex (CBOR.oadd offset (some 3)))), none⟩
                  else Except.error "RangeError"
              else if byte / 32 = 4 then
                match CBOR.decodeLoopA (CBOR.decodeItem fuel data) (CBOR.countOf (some v))
                    (CBOR.oadd offset (some 3)) [] with
                | .error e => .error e
                | .ok r2 => .ok ⟨.arr r2.1, CBOR.osub r2.2 offset⟩
              else if byte / 32 = 5 then
                match CBOR.decodeLoopM (CBOR.decodeItem fuel data) (CBOR.countOf (some v))
                    (CBOR.oadd offset (some 3)) [] with
                | .error e => .error e
                | .ok r2 => .ok ⟨.map r2.1, CBOR.osub r2.2 offset⟩
              else if byte / 32 = 7 then
                if byte % 32 = 27 then
                  match CBOR.getFloat64Bits data (CBOR.oadd offset (some 1)) with
                  | .error e => .error e
                  | .ok bits => .ok ⟨.float bits, some 9⟩
                else .error ("Unsupported CBOR type: " ++ toString (byte / 32))
              else .error ("Unsupported CBOR type: " ++ toString (byte / 32))
        else if byte % 32 = 26 then
          match CBOR.getUint32 data (CBOR.oadd offset (some 1)) with
          | .error e => .error e
          | .ok v =>
              if byte / 32 = 0 then
                Except.ok ⟨CBOR.numOrUndef (some v), some 5⟩
              else if byte / 32 = 1 then
                Except.ok ⟨CBOR.negOrNaN (some v), some 5⟩
              else if byte / 32 = 2 then
                match (some v) with
                | some len =>
                  if CBOR.jsIndex (CBOR.oadd offset (some 5)) + len ≤ data.length then
                    Except.ok ⟨.bytes ((data.drop (CBOR.jsIndex (CBOR.oadd offset (some 5)))).take len),
                         some (5 + len)⟩
                  else Except.error "RangeError"
                | none =>
                  if CBOR.jsIndex (CBOR.oadd offset (some 5)) ≤ data.length then
                    Except.ok ⟨.bytes (data.drop (CBOR.jsIndex (CBOR.oadd offset (some 5)))), none⟩
                  else Except.error "RangeError"
              else if byte / 32 = 3 then
                match (some v) with
                | some len =>
                  if CBOR.jsIndex (CBOR.oadd offset (some 5)) + len ≤ data.length then
                    Except.ok ⟨.text ((data.drop (CBOR.jsIndex (CBOR.oadd offset (some 5)))).take len),
                         some (5 + len)⟩
                  else Except.error "RangeError"
                | none =>
                  if CBOR.jsIndex (CBOR.oadd offset (some 5)) ≤ data.length then
                    Except.ok ⟨.text (data.drop (CBOR.jsIndex (CBOR.oadd offset (some 5)))), none⟩
                  else Except.error "RangeError"
              else if byte / 32 = 4 then
                match CBOR.decodeLoopA (CBOR.decodeItem fuel data) (CBOR.countOf (some v))
                    (CBOR.oadd offset (some 5)) [] with
                | .error e => .error e
                | .ok r2 => .ok ⟨.arr r2.1, CBOR.osub r2.2 offset⟩
              else if byte / 32 = 5 then
                match CBOR.decodeLoopM (CBOR.decodeItem fuel data) (CBOR.countOf (some v))
                    (CBOR.oadd offset (some 5)) [] with
                | .error e => .error e
                | .ok r2 => .ok ⟨.map r2.1, CBOR.osub r2.2 offset⟩
              else if byte / 32 = 7 then
                if byte % 32 = 27 then
                  match CBOR.getFloat64Bits data (CBOR.oadd offset (some 1)) with
                  | .error e => .error e
                  | .ok bits => .ok ⟨.float bits, some 9⟩
                else .error ("Unsupported CBOR type: " ++ toString (byte / 32))
              else .error ("Unsupported CBOR type: " ++ toString (byte / 32))
        else if byte % 32 = 244 then .ok ⟨.bool false, some 1⟩
        else if byte % 32 = 245 then .ok ⟨.bool true, some 1⟩
        else if byte % 32 = 246 then .ok ⟨.null, some 1⟩
        else if byte % 32 = 247 then .ok ⟨.undef, some 1⟩
        else
          if byte / 32 = 0 then
            Except.ok ⟨CBOR.numOrUndef none, some 1⟩
          else if byte / 32 = 1 then
            Except.ok ⟨CBOR.negOrNaN none, some 1⟩
          else if byte / 32 = 2 then
            match none with
            | some len =>
              if CBOR.jsIndex (CBOR.oadd offset (some 1)) + len ≤ data.length then
                Except.ok ⟨.bytes ((data.drop (CBOR.jsIndex (CBOR.oadd offset (some 1)))).take len),
                     some (1 + len)⟩
              else Except.error "RangeError"
            | none =>
              if CBOR.jsIndex (CBOR.oadd offset (some 1)) ≤ data.length then
                Except.ok ⟨.bytes (data.drop (CBOR.jsIndex (CBOR.oadd offset (some 1)))), none⟩
              else Except.error "RangeError"
          else if byte / 32 = 3 then
            match none with
            | some len =>
              if CBOR.jsIndex (CBOR.oadd offset (some 1)) + len ≤ data.length then
                Except.ok ⟨.text ((data.drop (CBOR.jsIndex (CBOR.oadd offset (some 1)))).take len),
                     some (1 + len)⟩
              else Except.error "RangeError"
            | none =>
              if CBOR.jsIndex (CBOR.oadd offset (some 1)) ≤ data.length then
                Except.ok ⟨.text (data.drop (CBOR.jsIndex (CBOR.oadd offset (some 1)))), none⟩
              else Except.error "RangeError"
          else if byte / 32 = 4 then
            match CBOR.decodeLoopA (CBOR.decodeItem fuel data) (CBOR.countOf none)
                (CBOR.oadd offset (some 1)) [] with
            | .error e => .error e
            | .ok r2 => .ok ⟨.arr r2.1, CBOR.osub r2.2 offset⟩
          else if byte / 32 = 5 then
            match CBOR.decodeLoopM (CBOR.decodeItem fuel data) (CBOR.countOf none)
                (CBOR.oadd offset (some 1)) [] with
            | .error e => .error e
            | .ok r2 => .ok ⟨.map r2.1, CBOR.osub r2.2 offset⟩
          else if byte / 32 = 7 then
            if byte % 32 = 27 then
              match CBOR.getFloat64Bits data (CBOR.oadd offset (some 1)) with
              | .error e => .error e
              | .ok bits => .ok ⟨.float bits, some 9⟩
            else .error ("Unsupported CBOR type: " ++ toString (byte / 32))
          else .error ("Unsupported CBOR type: " ++ toString (byte / 32))) := rfl

-- safety of the switch body (the local `cont` of decodeItem), stated on
-- the body verbatim with the ladder's (value?, bytesUsed) as parameters
theorem decodeBody_consumes (fuel : Nat) (data : List Nat) (off : Nat)
    (majorType info : Nat) (value? : Option Nat) (bytesUsed : Nat)
    (ih : ∀ (off2 : Nat) (r2 : CBOR.DecodeRes),
      CBOR.decodeItem fuel data (some off2) = .ok r2 →
      off2 < data.length ∧ (r2.bytesUsed = none ∨
        ∃ b, r2.bytesUsed = some b ∧ 1 ≤ b ∧ off2 + b ≤ data.length))
    (hbu : 1 ≤ bytesUsed) (hble : off + bytesUsed ≤ data.length)
    (r : CBOR.DecodeRes)
    (h : (if majorType = 0 then
            Except.ok ⟨CBOR.numOrUndef value?, some bytesUsed⟩
          else if majorType = 1 then
            Except.ok ⟨CBOR.negOrNaN value?, some bytesUsed⟩
          else if majorType = 2 then
            match value? with
            | some len =>
              if CBOR.jsIndex (CBOR.oadd (some off) (some bytesUsed)) + len ≤ data.length then
                Except.ok ⟨.bytes ((data.drop (CBOR.jsIndex (CBOR.oadd (some off) (some bytesUsed)))).take len),
                     some (bytesUsed + len)⟩
              else Except.error "RangeError"
            | none =>
              if CBOR.jsIndex (CBOR.oadd (some off) (some bytesUsed)) ≤ data.length then
                Except.ok ⟨.bytes (data.drop (CBOR.jsIndex (CBOR.oadd (some off) (some bytesUsed)))), none⟩
              else Except.error "RangeError"
          else if majorType = 3 then
            match value? with
            | some len =>
              if CBOR.jsIndex (CBOR.oadd (some off) (some bytesUsed)) + len ≤ data.length then
                Except.ok ⟨.text ((data.drop (CBOR.jsIndex (CBOR.oadd (some off) (some bytesUsed)))).take len),
                     some (bytesUsed + len)⟩
              else Except.error "RangeError"
            | none =>
              if CBOR.jsIndex (CBOR.oadd (some off) (some bytesUsed)) ≤ data.length then
                Except.ok ⟨.text (data.drop (CBOR.jsIndex (CBOR.oadd (some off) (some bytesUsed)))), none⟩
              else Except.error "RangeError"
          else if majorType = 4 then
            match CBOR.decodeLoopA (CBOR.decodeItem fuel data) (CBOR.countOf value?)
                (CBOR.oadd (some off) (some bytesUsed)) [] with
            | .error e => .error e
            | .ok r2 => .ok ⟨.arr r2.1, CBOR.osub r2.2 (some off)⟩
          else if majorType = 5 then
            match CBOR.decodeLoopM (CBOR.decodeItem fuel data) (CBOR.countOf value?)
                (CBOR.oadd (some off) (some bytesUsed)) [] with
            | .error e => .error e
            | .ok r2 => .ok ⟨.map r2.1, CBOR.osub r2.2 (some off)⟩
          else if majorType = 7 then
            if info = 27 then
              match CBOR.getFloat64Bits data (CBOR.oadd (some off) (some 1)) with
              | .error e => .error e
              | .ok bits => .ok ⟨.float bits, some 9⟩
            else .error ("Unsupported CBOR type: " ++ toString majorType)
          else .error ("Unsupported CBOR type: " ++ toString majorType)) = Except.ok r) :
    r.bytesUsed = none ∨
      ∃ b, r.bytesUsed = some b ∧ 1 ≤ b ∧ off + b ≤ data.length := by
  split at h
  · cases h
    exact Or.inr ⟨bytesUsed, rfl, hbu, hble⟩
  split at h
  · cases h
    exact Or.inr ⟨bytesUsed, rfl, hbu, hble⟩
  split at h
  · -- byte string
    split at h
    · rename_i len
      split at h
      · rename_i hcond
        cases h
        refine Or.inr ⟨bytesUsed + len, rfl, by omega, ?_⟩
        simp only [CBOR.oadd, CBOR.jsIndex] at hcond
        omega
      · cases h
    · split at h
      · cases h
        exact Or.inl rfl
      · cases h
  split at h
  · -- text string
    split at h
    · rename_i len
      split at h
      · rename_i hcond
        cases h
        refine Or.inr ⟨bytesUsed + len, rfl, by omega, ?_⟩
        simp only [CBOR.oadd, CBOR.jsIndex] at hcond
        omega
      · cases h
    · split at h
      · cases h
        exact Or.inl rfl
      · cases h
  split at h
  · -- array
    split at h
    · cases h
    · rename_i r2 hl
      cases h
      rcases decodeLoopA_consumes (CBOR.decodeItem fuel data) data.length ih
          (CBOR.countOf value?) (off + bytesUsed) [] r2 (by omega) hl with
        hn | ⟨o2, ho2, h1, h2⟩
      · rw [hn]
        exact Or.inl rfl
      · rw [ho2]
        exact Or.inr ⟨o2 - off, rfl, by omega, by omega⟩
  split at h
  · -- map
    split at h
    · cases h
    · rename_i r2 hl
      cases h
      rcases decodeLoopM_consumes (CBOR.decodeItem fuel data) data.length ih
          (CBOR.countOf value?) (off + bytesUsed) [] r2 (by omega) hl with
        hn | ⟨o2, ho2, h1, h2⟩
      · rw [hn]
        exact Or.inl rfl
      · rw [ho2]
        exact Or.inr ⟨o2 - off, rfl, by omega, by omega⟩
  split at h
  · -- float
    split at h
    · split at h
      · cases h
      · rename_i bits hf
        cases h
        have := getFloat64Bits_le data _ bits hf
        simp only [CBOR.oadd, CBOR.jsIndex] at this
        exact Or.inr ⟨9, rfl, by omega, by omega⟩
    · cases h
  · cases h

-- decoder safety: a successful decode at a definite offset starts in
-- bounds and consumes at least one byte without passing the end (or
-- reports a NaN byte count)
theorem decodeItem_consumes : ∀ (fuel : Nat) (data : List Nat) (off : Nat)
    (r : CBOR.DecodeRes), CBOR.decodeItem fuel data (some off) = .ok r →
    off < data.length ∧ (r.bytesUsed = none ∨
      ∃ b, r.bytesUsed = some b ∧ 1 ≤ b ∧ off + b ≤ data.length) := by
  intro fuel
  induction fuel with
  | zero => intro data off r h; cases h
  | succ fuel ih =>
    intro data off r h
    rw [decodeItem_succ_eq] at h
    split at h
    · cases h
    · rename_i byte hbyte
      have hoff : off < data.length := by
        have := getUint8_lt data (some off) byte hbyte
        simpa [CBOR.jsIndex] using this
      refine ⟨hoff, ?_⟩
      by_cases h1 : byte % 32 < 24
      · rw [if_pos h1] at h
        exact decodeBody_consumes fuel data off (byte / 32) (byte % 32)
          (some (byte % 32)) 1 (ih data) (by omega) (by omega) r h
      rw [if_neg h1] at h
      by_cases h2 : byte % 32 = 24
      · rw [if_pos h2] at h
        split at h
        · cases h
        · rename_i v hv
          have hb2 : off + 2 ≤ data.length := by
            have := getUint8_lt data (CBOR.oadd (some off) (some 1)) v hv
            simp only [CBOR.oadd, CBOR.jsIndex] at this
            omega
          exact decodeBody_consumes fuel data off (byte / 32) (byte % 32)
            (some v) 2 (ih data) (by omega) hb2 r h
      rw [if_neg h2] at h
      by_cases h3 : byte % 32 = 25
      · rw [if_pos h3] at h
        split at h
        · cases h
        · rename_i v hv
          have hb3 : off + 3 ≤ data.length := by
            have := getUint16_lt data (CBOR.oadd (some off) (some 1)) v hv
            simp only [CBOR.oadd, CBOR.jsIndex] at this
            omega
          exact decodeBody_consumes fuel data off (byte / 32) (byte % 32)
            (some v) 3 (ih data) (by omega) hb3 r h
      rw [if_neg h3] at h
      by_cases h4 : byte % 32 = 26
      · rw [if_pos h4] at h
        split at h
        · cases h
        · rename_i v hv
          have hb5 : off + 5 ≤ data.length := by
            have := getUint32_lt data (CBOR.oadd (some off) (some 1)) v hv
            simp only [CBOR.oadd, CBOR.jsIndex] at this
            omega
          exact decodeBody_consumes fuel data off (byte / 32) (byte % 32)
            (some v) 5 (ih data) (by omega) hb5 r h
      rw [if_neg h4] at h
      by_cases h5 : byte % 32 = 244
      · rw [if_pos h5] at h
        cases h
        exact Or.inr ⟨1, rfl, by omega, by omega⟩
      rw [if_neg h5] at h
      by_cases h6 : byte % 32 = 245
      · rw [if_pos h6] at h
        cases h
        exact Or.inr ⟨1, rfl, by omega, by omega⟩
      rw [if_neg h6] at h
      by_cases h7 : byte % 32 = 246
      · rw [if_pos h7] at h
        cases h
        exact Or.inr ⟨1, rfl, by omega, by omega⟩
      rw [if_neg h7] at h
      by_cases h8 : byte % 32 = 247
      · rw [if_pos h8] at h
        cases h
        exact Or.inr ⟨1, rfl, by omega, by omega⟩
      rw [if_neg h8] at h
      exact decodeBody_consumes fuel data off (byte / 32) (byte % 32)
        none 1 (ih data) (by omega) (by omega) r h

/-- `decodeItem_succ_eq` specialised to a successful head-byte read: the
head match is discharged, leaving the info ladder on the byte. -/
theorem decodeItem_succ_ok (fuel : Nat) (data : List Nat) (offset : Option Nat)
    (byte : Nat) (hbyte : CBOR.getUint8 data offset = .ok byte) :
    CBOR.decodeItem (fuel + 1) data offset =
      (
        if byte % 32 < 24 then
          if byte / 32 = 0 then
            Except.ok ⟨CBOR.numOrUndef (some (byte % 32)), some 1⟩
          else if byte / 32 = 1 then
            Except.ok ⟨CBOR.negOrNaN (some (byte % 32)), some 1⟩
          else if byte / 32 = 2 then
            match (some (byte % 32)) with
            | some len =>
              if CBOR.jsIndex (CBOR.oadd offset (some 1)) + len ≤ data.length then
                Except.ok ⟨.bytes ((data.drop (CBOR.jsIndex (CBOR.oadd offset (some 1)))).take len),
                     some (1 + len)⟩
              else Except.error "RangeError"
            | none =>
              if CBOR.jsIndex (CBOR.oadd offset (some 1)) ≤ data.length then
                Except.ok ⟨.bytes (data.drop (CBOR.jsIndex (CBOR.oadd offset (some 1)))), none⟩
              else Except.error "RangeError"
          else if byte / 32 = 3 then
            match (some (byte % 32)) with
            | some len =>
              if CBOR.jsIndex (CBOR.oadd offset (some 1)) + len ≤ data.length then
                Except.ok ⟨.text ((data.drop (CBOR.jsIndex (CBOR.oadd offset (some 1)))).take len),
                     some (1 + len)⟩
              else Except.error "RangeError"
            | none =>
              if CBOR.jsIndex (CBOR.oadd offset (some 1)) ≤ data.length then
                Except.ok ⟨.text (data.drop (CBOR.jsIndex (CBOR.oadd offset (some 1)))), none⟩
              else Except.error "RangeError"
          else if byte / 32 = 4 then
            match CBOR.decodeLoopA (CBOR.decodeItem fuel data) (CBOR.countOf (some (byte % 32)))
                (CBOR.oadd offset (some 1)) [] with
            | .error e => .error e
            | .ok r2 => .ok ⟨.arr r2.1, CBOR.osub r2.2 offset⟩
          else if byte / 32 = 5 then
            match CBOR.decodeLoopM (CBOR.decodeItem fuel data) (CBOR.countOf (some (byte % 32)))
                (CBOR.oadd offset (some 1)) [] with
            | .error e => .error e
            | .ok r2 => .ok ⟨.map r2.1, CBOR.osub r2.2 offset⟩
          else if byte / 32 = 7 then
            if byte % 32 = 27 then
              match CBOR.getFloat64Bits data (CBOR.oadd offset (some 1)) with
              | .error e => .error e
              | .ok bits => .ok ⟨.float bits, some 9⟩
            else .error ("Unsupported CBOR type: " ++ toString (byte / 32))
          else .error ("Unsupported CBOR type: " ++ toString (byte / 32))
        else if byte % 32 = 24 then
          match CBOR.getUint8 data (CBOR.oadd offset (some 1)) with
          | .error e => .error e
          | .ok v =>
              if byte / 32 = 0 then
                Except.ok ⟨CBOR.numOrUndef (some v), some 2⟩
              else if byte / 32 = 1 then
                Except.ok ⟨CBOR.negOrNaN (some v), some 2⟩
              else if byte / 32 = 2 then
                match (some v) with
                | some len =>
                  if CBOR.jsIndex (CBOR.oadd offset (some 2)) + len ≤ data.length then
                    Except.ok ⟨.bytes ((data.drop (CBOR.jsIndex (CBOR.oadd offset (some 2)))).take len),
                         some (2 + len)⟩
                  else Except.error "RangeError"
                | none =>
                  if CBOR.jsIndex (CBOR.oadd offset (some 2)) ≤ data.length then
                    Except.ok ⟨.bytes (data.drop (CBOR.jsIndex (CBOR.oadd offset (some 2)))), none⟩
                  else Except.error "RangeError"
              else if byte / 32 = 3 then
                match (some v) with
                | some len =>
                  if CBOR.jsIndex (CBOR.oadd offset (some 2)) + len ≤ data.length then
                    Except.ok ⟨.text ((data.drop (CBOR.jsIndex (CBOR.oadd offset (some 2)))).take len),
                         some (2 + len)⟩
                  else Except.error "RangeError"
                | none =>
                  if CBOR.jsIndex (CBOR.oadd offset (some 2)) ≤ data.length then
                    Except.ok ⟨.text (data.drop (CBOR.jsIndex (CBOR.oadd offset (some 2)))), none⟩
                  else Except.error "RangeError"
              else if byte / 32 = 4 then
                match CBOR.decodeLoopA (CBOR.decodeItem fuel data) (CBOR.countOf (some v))
                    (CBOR.oadd offset (some 2)) [] with
                | .error e => .error e
                | .ok r2 => .ok ⟨.arr r2.1, CBOR.osub r2.2 offset⟩
              else if byte / 32 = 5 then
                match CBOR.decodeLoopM (CBOR.decodeItem fuel data) (CBOR.countOf (some v))
                    (CBOR.oadd offset (some 2)) [] with
                | .error e => .error e
                | .ok r2 => .ok ⟨.map r2.1, CBOR.osub r2.2 offset⟩
              else if byte / 32 = 7 then
                if byte % 32 = 27 then
                  match CBOR.getFloat64Bits data (CBOR.oadd offset (some 1)) with
                  | .error e => .error e
                  | .ok bits => .ok ⟨.float bits, some 9⟩
                else .error ("Unsupported CBOR type: " ++ toString (byte / 32))
              else .error ("Unsupported CBOR type: " ++ toString (byte / 32))
        else if byte % 32 = 25 then
          match CBOR.getUint16 data (CBOR.oadd offset (some 1)) with
          | .error e => .error e
          | .ok v =>
              if byte / 32 = 0 then
                Except.ok ⟨CBOR.numOrUndef (some v), some 3⟩
              else if byte / 32 = 1 then
                Except.ok ⟨CBOR.negOrNaN (some v), some 3⟩
              else if byte / 32 = 2 then
                match (some v) with
                | some len =>
                  if CBOR.jsIndex (CBOR.oadd offset (some 3)) + len ≤ data.length then
                    Except.ok ⟨.bytes ((data.drop (CBOR.jsIndex (CBOR.oadd offset (some 3)))).take len),
                         some (3 + len)⟩
                  else Except.error "RangeError"
                | none =>
                  if CBOR.jsIndex (CBOR.oadd offset (some 3)) ≤ data.length then
                    Except.ok ⟨.bytes (data.drop (CBOR.jsIndex (CBOR.oadd offset (some 3)))), none⟩
                  else Except.error "RangeError"
              else if byte / 32 = 3 then
                match (some v) with
                | some len =>
                  if CBOR.jsIndex (CBOR.oadd offset (some 3)) + len ≤ data.length then
                    Except.ok ⟨.text ((data.drop (CBOR.jsIndex (CBOR.oadd offset (some 3)))).take len),
                         some (3 + len)⟩
                  else Except.error "RangeError"
                | none =>
                  if CBOR.jsIndex (CBOR.oadd offset (some 3)) ≤ data.length then
                    Except.ok ⟨.text (data.drop (CBOR.jsIndex (CBOR.oadd offset (some 3)))), none⟩
                  else Except.error "RangeError"
              else if byte / 32 = 4 then
                match CBOR.decodeLoopA (CBOR.decodeItem fuel data) (CBOR.countOf (some v))
                    (CBOR.oadd offset (some 3)) [] with
                | .error e => .error e
                | .ok r2 => .ok ⟨.arr r2.1, CBOR.osub r2.2 offset⟩
              else if byte / 32 = 5 then
                match CBOR.decodeLoopM (CBOR.decodeItem fuel data) (CBOR.countOf (some v))
                    (CBOR.oadd offset (some 3)) [] with
                | .error e => .error e
                | .ok r2 => .ok ⟨.map r2.1, CBOR.osub r2.2 offset⟩
              else if byte / 32 = 7 then
                if byte % 32 = 27 then
                  match CBOR.getFloat64Bits data (CBOR.oadd offset (some 1)) with
                  | .error e => .error e
                  | .ok bits => .ok ⟨.float bits, some 9⟩
                else .error ("Unsupported CBOR type: " ++ toString (byte / 32))
              else .error ("Unsupported CBOR type: " ++ toString (byte / 32))
        else if byte % 32 = 26 then
          match CBOR.getUint32 data (CBOR.oadd offset (some 1)) with
          | .error e => .error e
          | .ok v =>
              if byte / 32 = 0 then
                Except.ok ⟨CBOR.numOrUndef (some v), some 5⟩
              else if byte / 32 = 1 then
                Except.ok ⟨CBOR.negOrNaN (some v), some 5⟩
              else if byte / 32 = 2 then
                match (some v) with
                | some len =>
                  if CBOR.jsIndex (CBOR.oadd offset (some 5)) + len ≤ data.length then
                    Except.ok ⟨.bytes ((data.drop (CBOR.jsIndex (CBOR.oadd offset (some 5)))).take len),
                         some (5 + len)⟩
                  else Except.error "RangeError"
                | none =>
                  if CBOR.jsIndex (CBOR.oadd offset (some 5)) ≤ data.length then
                    Except.ok ⟨.bytes (data.drop (CBOR.jsIndex (CBOR.oadd offset (some 5)))), none⟩
                  else Except.error "RangeError"
              else if byte / 32 = 3 then
                match (some v) with
                | some len =>
                  if CBOR.jsIndex (CBOR.oadd offset (some 5)) + len ≤ data.length then
                    Except.ok ⟨.text ((data.drop (CBOR.jsIndex (CBOR.oadd offset (some 5)))).take len),
                         some (5 + len)⟩
                  else Except.error "RangeError"
                | none =>
                  if CBOR.jsIndex (CBOR.oadd offset (some 5)) ≤ data.length then
                    Except.ok ⟨.text (data.drop (CBOR.jsIndex (CBOR.oadd offset (some 5)))), none⟩
                  else Except.error "RangeError"
              else if byte / 32 = 4 then
                match CBOR.decodeLoopA (CBOR.decodeItem fuel data) (CBOR.countOf (some v))
                    (CBOR.oadd offset (some 5)) [] with
                | .error e => .error e
                | .ok r2 => .ok ⟨.arr r2.1, CBOR.osub r2.2 offset⟩
              else if byte / 32 = 5 then
                match CBOR.decodeLoopM (CBOR.decodeItem fuel data) (CBOR.countOf (some v))
                    (CBOR.oadd offset (some 5)) [] with
                | .error e => .error e
                | .ok r2 => .ok ⟨.map r2.1, CBOR.osub r2.2 offset⟩
              else if byte / 32 = 7 then
                if byte % 32 = 27 then
                  match CBOR.getFloat64Bits data (CBOR.oadd offset (some 1)) with
                  | .error e => .error e
                  | .ok bits => .ok ⟨.float bits, some 9⟩
                else .error ("Unsupported CBOR type: " ++ toString (byte / 32))
              else .error ("Unsupported CBOR type: " ++ toString (byte / 32))
        else if byte % 32 = 244 then .ok ⟨.bool false, some 1⟩
        else if byte % 32 = 245 then .ok ⟨.bool true, some 1⟩
        else if byte % 32 = 246 then .ok ⟨.null, some 1⟩
        else if byte % 32 = 247 then .ok ⟨.undef, some 1⟩
        else
          if byte / 32 = 0 then
            Except.ok ⟨CBOR.numOrUndef none, some 1⟩
          else if byte / 32 = 1 then
            Except.ok ⟨CBOR.negOrNaN none, some 1⟩
          else if byte / 32 = 2 then
            match none with
            | some len =>
              if CBOR.jsIndex (CBOR.oadd offset (some 1)) + len ≤ data.length then
                Except.ok ⟨.bytes ((data.drop (CBOR.jsIndex (CBOR.oadd offset (some 1)))).take len),
                     some (1 + len)⟩
              else Except.error "RangeError"
            | none =>
              if CBOR.jsIndex (CBOR.oadd offset (some 1)) ≤ data.length then
                Except.ok ⟨.bytes (data.drop (CBOR.jsIndex (CBOR.oadd offset (some 1)))), none⟩
              else Except.error "RangeError"
          else if byte / 32 = 3 then
            match none with
            | some len =>
              if CBOR.jsIndex (CBOR.oadd offset (some 1)) + len ≤ data.length then
                Except.ok ⟨.text ((data.drop (CBOR.jsIndex (CBOR.oadd offset (some 1)))).take len),
                     some (1 + len)⟩
              else Except.error "RangeError"
            | none =>
              if CBOR.jsIndex (CBOR.oadd offset (some 1)) ≤ data.length then
                Except.ok ⟨.text (data.drop (CBOR.jsIndex (CBOR.oadd offset (some 1)))), none⟩
              else Except.error "RangeError"
          else if byte / 32 = 4 then
            match CBOR.decodeLoopA (CBOR.decodeItem fuel data) (CBOR.countOf none)
                (CBOR.oadd offset (some 1)) [] with
            | .error e => .error e
            | .ok r2 => .ok ⟨.arr r2.1, CBOR.osub r2.2 offset⟩
          else if byte / 32 = 5 then
            match CBOR.decodeLoopM (CBOR.decodeItem fuel data) (CBOR.countOf none)
                (CBOR.oadd offset (some 1)) [] with
            | .error e => .error e
            | .ok r2 => .ok ⟨.map r2.1, CBOR.osub r2.2 offset⟩
          else if byte / 32 = 7 then
            if byte % 32 = 27 then
              match CBOR.getFloat64Bits data (CBOR.oadd offset (some 1)) with
              | .error e => .error e
              | .ok bits => .ok ⟨.float bits, some 9⟩
            else .error ("Unsupported CBOR type: " ++ toString (byte / 32))
          else .error ("Unsupported CBOR type: " ++ toString (byte / 32))) := by
  rw [decodeItem_succ_eq, hbyte]

-- an array or map head at byte 0 makes NaN-offset decoding (which
-- rereads byte 0) recurse until the stack is exhausted
theorem decodeItem_nan_container (data : List Nat) (h0 : Nat)
    (hhead : data[0]? = some h0) (hmaj : h0 / 32 = 4 ∨ h0 / 32 = 5)
    (hlo : 1 ≤ h0 % 32) (hhi : h0 % 32 < 24) :
    ∀ fuel, ∃ e, CBOR.decodeItem fuel data none = .error e := by
  intro fuel
  induction fuel with
  | zero => exact ⟨_, rfl⟩
  | succ fuel ih =>
    obtain ⟨e, he⟩ := ih
    refine ⟨e, ?_⟩
    have hu8 : CBOR.getUint8 data none = .ok h0 := by
      simp [CBOR.getUint8, CBOR.jsIndex, hhead]
    rw [decodeItem_succ_ok fuel data none h0 hu8]
    rw [if_pos hhi]
    obtain ⟨c, hc⟩ : ∃ c, h0 % 32 = c + 1 := ⟨h0 % 32 - 1, by omega⟩
    rcases hmaj with hm | hm
    · rw [hm]
      rw [if_neg (by omega)]
      rw [if_neg (by omega)]
      rw [if_neg (by omega)]
      rw [if_neg (by omega)]
      rw [if_pos rfl]
      rw [show CBOR.countOf (some (h0 % 32)) = h0 % 32 from rfl, hc]
      rw [show CBOR.oadd none (some 1) = none from rfl]
      simp only [CBOR.decodeLoopA, he]
    · rw [hm]
      rw [if_neg (by omega)]
      rw [if_neg (by omega)]
      rw [if_neg (by omega)]
      rw [if_neg (by omega)]
      rw [if_neg (by omega)]
      rw [if_pos rfl]
      rw [show CBOR.countOf (some (h0 % 32)) = h0 % 32 from rfl, hc]
      rw [show CBOR.oadd none (some 1) = none from rfl]
      simp only [CBOR.decodeLoopM, he]

-- a declared element count exceeding what the remaining bytes can hold
-- drives the loop into an error: every successful element consumes at
-- least one byte, an out-of-bounds read throws, and a NaN offset errors
theorem decodeLoopA_overcount (step : Option Nat → Except String CBOR.DecodeRes)
    (len : Nat)
    (hstep : ∀ o r, step (some o) = .ok r →
      o < len ∧ (r.bytesUsed = none ∨ ∃ b, r.bytesUsed = some b ∧ 1 ≤ b ∧ o + b ≤ len))
    (hoob : ∀ o, len ≤ o → ∃ e, step (some o) = .error e)
    (hnan : ∃ e, step none = .error e) :
    ∀ (c s : Nat) (acc : List CBOR.DValue), 1 ≤ c → len < c + s →
      ∃ e, CBOR.decodeLoopA step c (some s) acc = .error e := by
  intro c
  induction c with
  | zero => intro s acc hc _; exact absurd hc (by omega)
  | succ c ih =>
    intro s acc hc hlen
    by_cases hs : len ≤ s
    · obtain ⟨e, he⟩ := hoob s hs
      exact ⟨e, by simp only [CBOR.decodeLoopA, he]⟩
    · push_neg at hs
      cases hr : step (some s) with
      | error e => exact ⟨e, by simp only [CBOR.decodeLoopA, hr]⟩
      | ok r =>
        rcases (hstep s r hr).2 with hn | ⟨b, hb, hb1, hble⟩
        · obtain ⟨c2, rfl⟩ : ∃ c2, c = c2 + 1 := ⟨c - 1, by omega⟩
          obtain ⟨e, he⟩ := hnan
          refine ⟨e, ?_⟩
          simp only [CBOR.decodeLoopA, hr, hn, CBOR.oadd, he]
        · obtain ⟨e, he⟩ := ih (s + b) (r.value :: acc) (by omega) (by omega)
          refine ⟨e, ?_⟩
          simp only [CBOR.decodeLoopA, hr, hb, CBOR.oadd]
          exact he

theorem decodeLoopM_overcount (step : Option Nat → Except String CBOR.DecodeRes)
    (len : Nat)
    (hstep : ∀ o r, step (some o) = .ok r →
      o < len ∧ (r.bytesUsed = none ∨ ∃ b, r.bytesUsed = some b ∧ 1 ≤ b ∧ o + b ≤ len))
    (hoob : ∀ o, len ≤ o → ∃ e, step (some o) = .error e)
    (hnan : ∃ e, step none = .error e) :
    ∀ (c s : Nat) (acc : List (CBOR.DValue × CBOR.DValue)), 1 ≤ c → len < 2 * c + s →
      ∃ e, CBOR.decodeLoopM step c (some s) acc = .error e := by
  intro c
  induction c with
  | zero => intro s acc hc _; exact absurd hc (by omega)
  | succ c ih =>
    intro s acc hc hlen
    by_cases hs : len ≤ s
    · obtain ⟨e, he⟩ := hoob s hs
      exact ⟨e, by simp only [CBOR.decodeLoopM, he]⟩
    · push_neg at hs
      cases hk : step (some s) with
      | error e => exact ⟨e, by simp only [CBOR.decodeLoopM, hk]⟩
      | ok rk =>
        rcases (hstep s rk hk).2 with hkn | ⟨bk, hbk, hbk1, hbkle⟩
        · obtain ⟨e, he⟩ := hnan
          refine ⟨e, ?_⟩
          simp only [CBOR.decodeLoopM, hk, hkn, CBOR.oadd, he]
        · by_cases hsv : len ≤ s + bk
          · obtain ⟨e, he⟩ := hoob (s + bk) hsv
            refine ⟨e, ?_⟩
            simp only [CBOR.decodeLoopM, hk, hbk, CBOR.oadd, he]
          · push_neg at hsv
            cases hv : step (some (s + bk)) with
            | error e =>
              refine ⟨e, ?_⟩
              simp only [CBOR.decodeLoopM, hk, hbk, CBOR.oadd, hv]
            | ok rv =>
              rcases (hstep _ rv hv).2 with hvn | ⟨bv, hbv, hbv1, hbvle⟩
              · obtain ⟨c2, rfl⟩ : ∃ c2, c = c2 + 1 := ⟨c - 1, by omega⟩
                obtain ⟨e, he⟩ := hnan
                refine ⟨e, ?_⟩
                simp only [CBOR.decodeLoopM, hk, hbk, hv, hvn, CBOR.oadd, he]
              · obtain ⟨e, he⟩ := ih (s + bk + bv) ((rk.value, rv.value) :: acc)
                  (by omega) (by omega)
                refine ⟨e, ?_⟩
                simp only [CBOR.decodeLoopM, hk, hbk, hv, hbv, CBOR.oadd]
                exact he

-- array with inline count n declaring more elements than bytes remain
theorem decode_array_overcount (fuel n : Nat) (rest : List Nat)
    (h1 : 1 ≤ n) (h2 : n < 24) (h3 : rest.length < n) :
    ∃ e, CBOR.decodeItem fuel ((128 + n) :: rest) (some 0) = .error e := by
  cases fuel with
  | zero => exact ⟨_, rfl⟩
  | succ fuel =>
    have hu8 : CBOR.getUint8 ((128 + n) :: rest) (some 0) = .ok (128 + n) := by
      simp [CBOR.getUint8, CBOR.jsIndex]
    have hinfo : (128 + n) % 32 = n := by omega
    have hmaj : (128 + n) / 32 = 4 := by omega
    obtain ⟨e, he⟩ := decodeLoopA_overcount
      (CBOR.decodeItem fuel ((128 + n) :: rest)) ((128 + n) :: rest).length
      (fun o r h => decodeItem_consumes fuel ((128 + n) :: rest) o r h)
      (fun o ho => decodeItem_oob_any fuel ((128 + n) :: rest) o ho)
      (decodeItem_nan_container ((128 + n) :: rest) (128 + n) (by simp)
        (Or.inl hmaj) (by omega) (by omega) fuel)
      n 1 [] h1 (by simp only [List.length_cons]; omega)
    refine ⟨e, ?_⟩
    rw [decodeItem_succ_ok fuel ((128 + n) :: rest) (some 0) (128 + n) hu8]
    rw [hinfo, if_pos h2, hmaj]
    norm_num
    rw [show CBOR.oadd (some 0) (some 1) = some 1 from rfl]
    rw [show CBOR.countOf (some n) = n from rfl]
    simp only [he]

-- map with inline pair count n but fewer than 2n bytes after the head
theorem decode_map_overcount (fuel n : Nat) (rest : List Nat)
    (h1 : 1 ≤ n) (h2 : n < 24) (h3 : rest.length < 2 * n) :
    ∃ e, CBOR.decodeItem fuel ((160 + n) :: rest) (some 0) = .error e := by
  cases fuel with
  | zero => exact ⟨_, rfl⟩
  | succ fuel =>
    have hu8 : CBOR.getUint8 ((160 + n) :: rest) (some 0) = .ok (160 + n) := by
      simp [CBOR.getUint8, CBOR.jsIndex]
    have hinfo : (160 + n) % 32 = n := by omega
    have hmaj : (160 + n) / 32 = 5 := by omega
    obtain ⟨e, he⟩ := decodeLoopM_overcount
      (CBOR.decodeItem fuel ((160 + n) :: rest)) ((160 + n) :: rest).length
      (fun o r h => decodeItem_consumes fuel ((160 + n) :: rest) o r h)
      (fun o ho => decodeItem_oob_any fuel ((160 + n) :: rest) o ho)
      (decodeItem_nan_container ((160 + n) :: rest) (160 + n) (by simp)
        (Or.inr hmaj) (by omega) (by omega) fuel)
      n 1 [] h1 (by simp only [List.length_cons]; omega)
    refine ⟨e, ?_⟩
    rw [decodeItem_succ_ok fuel ((160 + n) :: rest) (some 0) (160 + n) hu8]
    rw [hinfo, if_pos h2, hmaj]
    norm_num
    rw [show CBOR.oadd (some 0) (some 1) = some 1 from rfl]
    rw [show CBOR.countOf (some n) = n from rfl]
    simp only [he]


set_option maxHeartbeats 1600000 in
/-- Byte string with the 1-byte length descriptor (head byte 88)
declaring a length exceeding the bytes remaining: `RangeError`. -/
theorem decode_bytesLen8_overrun (fuel : Nat) (L : Nat) (rest : List Nat)
    (h3 : rest.length < L) :
    CBOR.decodeItem (fuel + 1) (88 :: L :: rest) (some 0) = .error "RangeError" := by
  have hu8 : CBOR.getUint8 (88 :: L :: rest) (some 0) = .ok 88 := by
    simp [CBOR.getUint8, CBOR.jsIndex]
  have hread : CBOR.getUint8 (88 :: L :: rest) (some 1) = .ok (L) := by
    simp [CBOR.getUint8, CBOR.jsIndex]
  rw [decodeItem_succ_ok fuel (88 :: L :: rest) (some 0) 88 hu8]
  rw [show (88 : Nat) % 32 = 24 from by norm_num]
  rw [if_neg (by omega), if_pos rfl]
  rw [show CBOR.oadd (some 0) (some 1) = some 1 from rfl]
  simp only [hread]
  rw [show (88 : Nat) / 32 = 2 from by norm_num]
  norm_num
  intro hcond
  exfalso
  simp only [CBOR.oadd, CBOR.jsIndex, List.length_cons] at hcond
  omega

set_option maxHeartbeats 1600000 in
/-- Byte string with the 2-byte length descriptor (head byte 89)
declaring a length exceeding the bytes remaining: `RangeError`. -/
theorem decode_bytesLen16_overrun (fuel : Nat) (b0 b1 : Nat) (rest : List Nat)
    (h3 : rest.length < b0 * 256 + b1) :
    CBOR.decodeItem (fuel + 1) (89 :: b0 :: b1 :: rest) (some 0) = .error "RangeError" := by
  have hu8 : CBOR.getUint8 (89 :: b0 :: b1 :: rest) (some 0) = .ok 89 := by
    simp [CBOR.getUint8, CBOR.jsIndex]
  have hread : CBOR.getUint16 (89 :: b0 :: b1 :: rest) (some 1) = .ok (b0 * 256 + b1) := by
    simp [CBOR.getUint16, CBOR.jsIndex]
  rw [decodeItem_succ_ok fuel (89 :: b0 :: b1 :: rest) (some 0) 89 hu8]
  rw [show (89 : Nat) % 32 = 25 from by norm_num]
  rw [if_neg (by omega), if_neg (by omega), if_pos rfl]
  rw [show CBOR.oadd (some 0) (some 1) = some 1 from rfl]
  simp only [hread]
  rw [show (89 : Nat) / 32 = 2 from by norm_num]
  norm_num
  intro hcond
  exfalso
  simp only [CBOR.oadd, CBOR.jsIndex, List.length_cons] at hcond
  omega

set_option maxHeartbeats 1600000 in
/-- Byte string with the 4-byte length descriptor (head byte 90)
declaring a length exceeding the bytes remaining: `RangeError`. -/
theorem decode_bytesLen32_overrun (fuel : Nat) (b0 b1 b2 b3 : Nat) (rest : List Nat)
    (h3 : rest.length < ((b0 * 256 + b1) * 256 + b2) * 256 + b3) :
    CBOR.decodeItem (fuel + 1) (90 :: b0 :: b1 :: b2 :: b3 :: rest) (some 0) = .error "RangeError" := by
  have hu8 : CBOR.getUint8 (90 :: b0 :: b1 :: b2 :: b3 :: rest) (some 0) = .ok 90 := by
    simp [CBOR.getUint8, CBOR.jsIndex]
  have hread : CBOR.getUint32 (90 :: b0 :: b1 :: b2 :: b3 :: rest) (some 1) = .ok (((b0 * 256 + b1) * 256 + b2) * 256 + b3) := by
    simp [CBOR.getUint32, CBOR.jsIndex]
  rw [decodeItem_succ_ok fuel (90 :: b0 :: b1 :: b2 :: b3 :: rest) (some 0) 90 hu8]
  rw [show (90 : Nat) % 32 = 26 from by norm_num]
  rw [if_neg (by omega), if_neg (by omega), if_neg (by omega), if_pos rfl]
  rw [show CBOR.oadd (some 0) (some 1) = some 1 from rfl]
  simp only [hread]
  rw [show (90 : Nat) / 32 = 2 from by norm_num]
  norm_num
  intro hcond
  exfalso
  simp only [CBOR.oadd, CBOR.jsIndex, List.length_cons] at hcond
  omega

set_option maxHeartbeats 1600000 in
/-- Text string with the 1-byte length descriptor (head byte 120)
declaring a length exceeding the bytes remaining: `RangeError`. -/
theorem decode_textLen8_overrun (fuel : Nat) (L : Nat) (rest : List Nat)
    (h3 : rest.length < L) :
    CBOR.decodeItem (fuel + 1) (120 :: L :: rest) (some 0) = .error "RangeError" := by
  have hu8 : CBOR.getUint8 (120 :: L :: rest) (some 0) = .ok 120 := by
    simp [CBOR.getUint8, CBOR.jsIndex]
  have hread : CBOR.getUint8 (120 :: L :: rest) (some 1) = .ok (L) := by
    simp [CBOR.getUint8, CBOR.jsIndex]
  rw [decodeItem_succ_ok fuel (120 :: L :: rest) (some 0) 120 hu8]
  rw [show (120 : Nat) % 32 = 24 from by norm_num]
  rw [if_neg (by omega), if_pos rfl]
  rw [show CBOR.oadd (some 0) (some 1) = some 1 from rfl]
  simp only [hread]
  rw [show (120 : Nat) / 32 = 3 from by norm_num]
  norm_num
  intro hcond
  exfalso
  simp only [CBOR.oadd, CBOR.jsIndex, List.length_cons] at hcond
  omega

set_option maxHeartbeats 1600000 in
/-- Text string with the 2-byte length descriptor (head byte 121)
declaring a length exceeding the bytes remaining: `RangeError`. -/
theorem decode_textLen16_overrun (fuel : Nat) (b0 b1 : Nat) (rest : List Nat)
    (h3 : rest.length < b0 * 256 + b1) :
    CBOR.decodeItem (fuel + 1) (121 :: b0 :: b1 :: rest) (some 0) = .error "RangeError" := by
  have hu8 : CBOR.getUint8 (121 :: b0 :: b1 :: rest) (some 0) = .ok 121 := by
    simp [CBOR.getUint8, CBOR.jsIndex]
  have hread : CBOR.getUint16 (121 :: b0 :: b1 :: rest) (some 1) = .ok (b0 * 256 + b1) := by
    simp [CBOR.getUint16, CBOR.jsIndex]
  rw [decodeItem_succ_ok fuel (121 :: b0 :: b1 :: rest) (some 0) 121 hu8]
  rw [show (121 : Nat) % 32 = 25 from by norm_num]
  rw [if_neg (by omega), if_neg (by omega), if_pos rfl]
  rw [show CBOR.oadd (some 0) (some 1) = some 1 from rfl]
  simp only [hread]
  rw [show (121 : Nat) / 32 = 3 from by norm_num]
  norm_num
  intro hcond
  exfalso
  simp only [CBOR.oadd, CBOR.jsIndex, List.length_cons] at hcond
  omega

set_option maxHeartbeats 1600000 in
/-- Text string with the 4-byte length descriptor (head byte 122)
declaring a length exceeding the bytes remaining: `RangeError`. -/
theorem decode_textLen32_overrun (fuel : Nat) (b0 b1 b2 b3 : Nat) (rest : List Nat)
    (h3 : rest.length < ((b0 * 256 + b1) * 256 + b2) * 256 + b3) :
    CBOR.decodeItem (fuel + 1) (122 :: b0 :: b1 :: b2 :: b3 :: rest) (some 0) = .error "RangeError" := by
  have hu8 : CBOR.getUint8 (122 :: b0 :: b1 :: b2 :: b3 :: rest) (some 0) = .ok 122 := by
    simp [CBOR.getUint8, CBOR.jsIndex]
  have hread : CBOR.getUint32 (122 :: b0 :: b1 :: b2 :: b3 :: rest) (some 1) = .ok (((b0 * 256 + b1) * 256 + b2) * 256 + b3) := by
    simp [CBOR.getUint32, CBOR.jsIndex]
  rw [decodeItem_succ_ok fuel (122 :: b0 :: b1 :: b2 :: b3 :: rest) (some 0) 122 hu8]
  rw [show (122 : Nat) % 32 = 26 from by norm_num]
  rw [if_neg (by omega), if_neg (by omega), if_neg (by omega), if_pos rfl]
  rw [show CBOR.oadd (some 0) (some 1) = some 1 from rfl]
  simp only [hread]
  rw [show (122 : Nat) / 32 = 3 from by norm_num]
  norm_num
  intro hcond
  exfalso
  simp only [CBOR.oadd, CBOR.jsIndex, List.length_cons] at hcond
  omega

-- the one-, two- or four-byte length field itself truncated by the end of the buffer
theorem decode_lenfield_truncated (fuel : Nat) (b : Nat) (rest : List Nat)
    (h : (b % 32 = 24 ∧ rest.length < 1) ∨ (b % 32 = 25 ∧ rest.length < 2) ∨
         (b % 32 = 26 ∧ rest.length < 4)) :
    CBOR.decodeItem (fuel + 1) (b :: rest) (some 0) = .error "RangeError" := by
  have hu8 : CBOR.getUint8 (b :: rest) (some 0) = .ok b := by
    simp [CBOR.getUint8, CBOR.jsIndex]
  rw [decodeItem_succ_ok fuel (b :: rest) (some 0) b hu8]
  rcases h with ⟨hm, hr⟩ | ⟨hm, hr⟩ | ⟨hm, hr⟩
  · rw [hm]
    rw [if_neg (by omega), if_pos rfl]
    have hre : CBOR.getUint8 (b :: rest) (CBOR.oadd (some 0) (some 1)) =
        .error "RangeError" := by
      have h0 : rest = [] := List.length_eq_zero.mp (by omega)
      subst h0
      simp [CBOR.getUint8, CBOR.jsIndex, CBOR.oadd]
    simp only [hre]
  · rw [hm]
    rw [if_neg (by omega), if_neg (by omega), if_pos rfl]
    have hre : CBOR.getUint16 (b :: rest) (CBOR.oadd (some 0) (some 1)) =
        .error "RangeError" := by
      rcases rest with _ | ⟨x, rest2⟩
      · simp [CBOR.getUint16, CBOR.jsIndex, CBOR.oadd]
      · rcases rest2 with _ | ⟨y, rest3⟩
        · simp [CBOR.getUint16, CBOR.jsIndex, CBOR.oadd]
        · exfalso
          simp only [List.length_cons] at hr
          omega
    simp only [hre]
  · rw [hm]
    rw [if_neg (by omega), if_neg (by omega), if_neg (by omega), if_pos rfl]
    have hre : CBOR.getUint32 (b :: rest) (CBOR.oadd (some 0) (some 1)) =
        .error "RangeError" := by
      rcases rest with _ | ⟨x1, _ | ⟨x2, _ | ⟨x3, _ | ⟨x4, rest4⟩⟩⟩⟩
      · simp [CBOR.getUint32, CBOR.jsIndex, CBOR.oadd]
      · simp [CBOR.getUint32, CBOR.jsIndex, CBOR.oadd]
      · simp [CBOR.getUint32, CBOR.jsIndex, CBOR.oadd]
      · simp [CBOR.getUint32, CBOR.jsIndex, CBOR.oadd]
      · exfalso
        simp only [List.length_cons] at hr
        omega
    simp only [hre]

/-- C8 counterexample: the one-byte input `[0x1C]` (major type 0,
reserved additional-info 28) matches no defined pattern, yet `decode`
does not fail: the ladder leaves `value` undefined and the integer case
returns it, so decoding succeeds with the value `undefined` and one byte
consumed. -/
theorem C8_malformed_descriptor_counterexample :
    CBOR.decodeItem 8 [28] (some 0) = .ok ⟨.undef, some 1⟩ ∧
    CBOR.decode 8 [28] = .ok .undef :=
  ⟨rfl, rfl⟩

/-- C8 amended: `decode` fails whenever a declared size exceeds the
buffer: reading the head past the end; a byte-string or text-string
length descriptor of any width (inline `l < 24`, one-byte `0x58`/`0x78`,
two-byte `0x59`/`0x79`, four-byte `0x5A`/`0x7A`) declaring more content
bytes than remain; a one-, two- or four-byte length field itself cut off by the end
of the buffer; an inline array count `n ≥ 1` with fewer than `n` bytes
after the head; and an inline map pair count `n ≥ 1` with fewer than
`2*n` bytes after the head (the container cases fail with some error:
`RangeError`, or stack exhaustion on the degenerate NaN-offset path).
But a leading descriptor matching no defined pattern is *not* uniformly
rejected: under major type 0 the reserved info values 28-31 are accepted
and decode to the value `undefined` with one byte consumed. -/
theorem C8_decode_bounds :
    (∀ fuel : Nat, ∀ data : List Nat, ∀ offset : Nat, data.length ≤ offset →
      CBOR.decodeItem (fuel + 1) data (some offset) = .error "RangeError") ∧
    (∀ fuel : Nat, ∀ rest : List Nat, ∀ l : Nat, l < 24 → rest.length < l →
      CBOR.decodeItem (fuel + 1) ((64 + l) :: rest) (some 0) =
        .error "RangeError") ∧
    (∀ fuel L : Nat, ∀ rest : List Nat, rest.length < L →
      CBOR.decodeItem (fuel + 1) (88 :: L :: rest) (some 0) =
        .error "RangeError") ∧
    (∀ fuel b0 b1 : Nat, ∀ rest : List Nat, rest.length < b0 * 256 + b1 →
      CBOR.decodeItem (fuel + 1) (89 :: b0 :: b1 :: rest) (some 0) =
        .error "RangeError") ∧
    (∀ fuel b0 b1 b2 b3 : Nat, ∀ rest : List Nat,
      rest.length < ((b0 * 256 + b1) * 256 + b2) * 256 + b3 →
      CBOR.decodeItem (fuel + 1) (90 :: b0 :: b1 :: b2 :: b3 :: rest) (some 0) =
        .error "RangeError") ∧
    (∀ fuel : Nat, ∀ rest : List Nat, ∀ l : Nat, l < 24 → rest.length < l →
      CBOR.decodeItem (fuel + 1) ((96 + l) :: rest) (some 0) =
        .error "RangeError") ∧
    (∀ fuel L : Nat, ∀ rest : List Nat, rest.length < L →
      CBOR.decodeItem (fuel + 1) (120 :: L :: rest) (some 0) =
        .error "RangeError") ∧
    (∀ fuel b0 b1 : Nat, ∀ rest : List Nat, rest.length < b0 * 256 + b1 →
      CBOR.decodeItem (fuel + 1) (121 :: b0 :: b1 :: rest) (some 0) =
        .error "RangeError") ∧
    (∀ fuel b0 b1 b2 b3 : Nat, ∀ rest : List Nat,
      rest.length < ((b0 * 256 + b1) * 256 + b2) * 256 + b3 →
      CBOR.decodeItem (fuel + 1) (122 :: b0 :: b1 :: b2 :: b3 :: rest) (some 0) =
        .error "RangeError") ∧
    (∀ fuel b : Nat, ∀ rest : List Nat,
      (b % 32 = 24 ∧ rest.length < 1) ∨ (b % 32 = 25 ∧ rest.length < 2) ∨
        (b % 32 = 26 ∧ rest.length < 4) →
      CBOR.decodeItem (fuel + 1) (b :: rest) (some 0) = .error "RangeError") ∧
    (∀ fuel n : Nat, ∀ rest : List Nat, 1 ≤ n → n < 24 → rest.length < n →
      ∃ e, CBOR.decodeItem fuel ((128 + n) :: rest) (some 0) = .error e) ∧
    (∀ fuel n : Nat, ∀ rest : List Nat, 1 ≤ n → n < 24 → rest.length < 2 * n →
      ∃ e, CBOR.decodeItem fuel ((160 + n) :: rest) (some 0) = .error e) ∧
    (∀ fuel : Nat, ∀ info : Nat, ∀ rest : List Nat, 28 ≤ info → info ≤ 31 →
      CBOR.decodeItem (fuel + 1) (info :: rest) (some 0) =
        .ok ⟨.undef, some 1⟩) := by
  refine ⟨?_, ?_, decode_bytesLen8_overrun, decode_bytesLen16_overrun,
    decode_bytesLen32_overrun, ?_, decode_textLen8_overrun,
    decode_textLen16_overrun, decode_textLen32_overrun,
    decode_lenfield_truncated, decode_array_overcount,
    decode_map_overcount, ?_⟩
  · intro fuel data offset h
    simp [CBOR.decodeItem, CBOR.getUint8, CBOR.jsIndex, List.getElem?_eq_none h]
  · intro fuel rest l h1 h2
    have hmaj : (64 + l) / 32 = 2 := by omega
    have hinfo : (64 + l) % 32 = l := by omega
    simp only [CBOR.decodeItem, CBOR.getUint8, CBOR.jsIndex,
      List.getElem?_cons_zero, hmaj, hinfo, CBOR.oadd]
    rw [if_pos h1]
    simp only [CBOR.oadd, CBOR.jsIndex, List.length_cons, if_true]
    split_ifs <;> first | rfl | omega | assumption
  · intro fuel rest l h1 h2
    have hmaj : (96 + l) / 32 = 3 := by omega
    have hinfo : (96 + l) % 32 = l := by omega
    simp only [CBOR.decodeItem, CBOR.getUint8, CBOR.jsIndex,
      List.getElem?_cons_zero, hmaj, hinfo, CBOR.oadd]
    rw [if_pos h1]
    simp only [CBOR.oadd, CBOR.jsIndex, List.length_cons, if_true]
    split_ifs <;> first | rfl | omega | assumption
  · intro fuel info rest h1 h2
    have hmaj : info / 32 = 0 := by omega
    have hinfo : info % 32 = info := by omega
    simp only [CBOR.decodeItem, CBOR.getUint8, CBOR.jsIndex,
      List.getElem?_cons_zero, hmaj, hinfo, CBOR.numOrUndef]
    split_ifs <;> first | rfl | omega | assumption

/-- Witness for C8: each bound applied concretely — empty buffer; inline
byte string `0x45` and text `0x65` with no content; the wide descriptors
`58 05`, `59 00 01`, `5A 00 00 00 01`, `78 02 61`, `79 00 01`,
`7A 00 00 00 01`; the truncated length field `59 00`; the array `82 05`
missing its second element; the map `A1` with no pair; and the
reserved-info byte `0x1E`. -/
theorem C8_decode_bounds_witness :
    CBOR.decodeItem (7 + 1) [] (some 0) = .error "RangeError" ∧
    CBOR.decodeItem (7 + 1) ((64 + 5) :: []) (some 0) = .error "RangeError" ∧
    CBOR.decodeItem (7 + 1) (88 :: 5 :: []) (some 0) = .error "RangeError" ∧
    CBOR.decodeItem (7 + 1) (89 :: 0 :: 1 :: []) (some 0) =
      .error "RangeError" ∧
    CBOR.decodeItem (7 + 1) (90 :: 0 :: 0 :: 0 :: 1 :: []) (some 0) =
      .error "RangeError" ∧
    CBOR.decodeItem (7 + 1) ((96 + 5) :: []) (some 0) = .error "RangeError" ∧
    CBOR.decodeItem (7 + 1) (120 :: 2 :: [97]) (some 0) =
      .error "RangeError" ∧
    CBOR.decodeItem (7 + 1) (121 :: 0 :: 1 :: []) (some 0) =
      .error "RangeError" ∧
    CBOR.decodeItem (7 + 1) (122 :: 0 :: 0 :: 0 :: 1 :: []) (some 0) =
      .error "RangeError" ∧
    CBOR.decodeItem (7 + 1) (89 :: 0 :: []) (some 0) = .error "RangeError" ∧
    (∃ e, CBOR.decodeItem 8 ((128 + 2) :: [5]) (some 0) = .error e) ∧
    (∃ e, CBOR.decodeItem 8 ((160 + 1) :: []) (some 0) = .error e) ∧
    CBOR.decodeItem (7 + 1) (30 :: []) (some 0) = .ok ⟨.undef, some 1⟩ :=
  ⟨C8_decode_bounds.1 7 [] 0 (by decide),
   C8_decode_bounds.2.1 7 [] 5 (by decide) (by decide),
   C8_decode_bounds.2.2.1 7 5 [] (by decide),
   C8_decode_bounds.2.2.2.1 7 0 1 [] (by decide),
   C8_decode_bounds.2.2.2.2.1 7 0 0 0 1 [] (by decide),
   C8_decode_bounds.2.2.2.2.2.1 7 [] 5 (by decide) (by decide),
   C8_decode_bounds.2.2.2.2.2.2.1 7 2 [97] (by decide),
   C8_decode_bounds.2.2.2.2.2.2.2.1 7 0 1 [] (by decide),
   C8_decode_bounds.2.2.2.2.2.2.2.2.1 7 0 0 0 1 [] (by decide),
   C8_decode_bounds.2.2.2.2.2.2.2.2.2.1 7 89 [0] (by decide),
   C8_decode_bounds.2.2.2.2.2.2.2.2.2.2.1 8 2 [5] (by decide) (by decide)
     (by decide),
   C8_decode_bounds.2.2.2.2.2.2.2.2.2.2.2.1 8 1 [] (by decide) (by decide)
     (by decide),
   C8_decode_bounds.2.2.2.2.2.2.2.2.2.2.2.2 7 30 [] (by decide)
     (by decide)⟩

/-- C9: the encoder is silently partial on out-of-range integers — the
number branch never throws, and whenever the width-minimal magnitude
(`n` for `n ≥ 0`, `-n-1` for `n < 0`) is at least `2^32` every branch of
`encodeUnsigned` is skipped, so nothing at all is appended to the
buffer and the value's descriptor is simply missing from the output. -/
theorem C9_encode_silently_partial (bits : Nat) (buffer : List Nat)
    (hint : CBOR.isInteger bits = true)
    (hbig : 4294967296 ≤ CBOR.intMagnitude bits) :
    CBOR.encodeItem (CBOR.Value.num bits) buffer = buffer := by
  have hform : CBOR.encodeItem (CBOR.Value.num bits) buffer =
      if 0 ≤ CBOR.toInt bits then
        CBOR.encodeUnsigned (CBOR.toInt bits).toNat 0 buffer
      else CBOR.encodeUnsigned (-(CBOR.toInt bits) - 1).toNat 1 buffer := by
    simp [CBOR.encodeItem, hint]
  rw [hform]
  unfold CBOR.intMagnitude at hbig
  by_cases hs : 0 ≤ CBOR.toInt bits
  · rw [if_pos hs]
    rw [if_pos hs] at hbig
    exact encodeUnsigned_big _ _ _ hbig
  · rw [if_neg hs]
    rw [if_neg hs] at hbig
    exact encodeUnsigned_big _ _ _ hbig

/-- Witness for C9 at the number 2^32 (pattern 0x41F0000000000000): the
buffer is returned untouched. -/
theorem C9_encode_silently_partial_witness :
    CBOR.isInteger 0x41F0000000000000 = true ∧
    CBOR.toInt 0x41F0000000000000 = 4294967296 ∧
    4294967296 ≤ CBOR.intMagnitude 0x41F0000000000000 ∧
    CBOR.encodeItem (CBOR.Value.num 0x41F0000000000000) [130] = [130] :=
  ⟨by decide, by decide, by decide,
   C9_encode_silently_partial 0x41F0000000000000 [130] (by decide) (by decide)⟩

/-- C10: `sendCommand`'s timeout is reported in-band as data — after the
5000 ms bound the callback removes the resolver from the FIFO queue and
*resolves* (never rejects) with the literal string `'TIMEOUT'`, an
outcome identical to what `handleResponse` delivers when the device
itself sends a line reading `TIMEOUT`. -/
theorem C10_timeout_in_band (queue rest : List Nat) (r : Nat)
    (hq : r ∈ queue) :
    WebSerialCore.sendCommandTimeoutMs = 5000 ∧
    WebSerialCore.sendCommandOnTimeout queue r =
      (some (Outcome.resolved "TIMEOUT"), queue.erase r) ∧
    (∀ e, (WebSerialCore.sendCommandOnTimeout queue r).1 ≠
      some (Outcome.rejected e)) ∧
    WebSerialCore.handleResponse (r :: rest) "TIMEOUT" =
      (some (r, Outcome.resolved "TIMEOUT"), rest) ∧
    (WebSerialCore.handleResponse (r :: rest) "TIMEOUT").1.map Prod.snd =
      (WebSerialCore.sendCommandOnTimeout queue r).1 := by
  refine ⟨rfl, by simp [WebSerialCore.sendCommandOnTimeout, hq], ?_, rfl,
    by simp [WebSerialCore.sendCommandOnTimeout, WebSerialCore.handleResponse, hq]⟩
  intro e
  simp [WebSerialCore.sendCommandOnTimeout, hq]

/-- Witness for C10 with resolver 3 queued alone. -/
theorem C10_timeout_in_band_witness :
    (3 : Nat) ∈ [3] ∧
    (WebSerialCore.sendCommandTimeoutMs = 5000 ∧
     WebSerialCore.sendCommandOnTimeout [3] 3 =
       (some (Outcome.resolved "TIMEOUT"), ([3] : List Nat).erase 3) ∧
     (∀ e, (WebSerialCore.sendCommandOnTimeout [3] 3).1 ≠
       some (Outcome.rejected e)) ∧
     WebSerialCore.handleResponse (3 :: []) "TIMEOUT" =
       (some (3, Outcome.resolved "TIMEOUT"), []) ∧
     (WebSerialCore.handleResponse (3 :: []) "TIMEOUT").1.map Prod.snd =
       (WebSerialCore.sendCommandOnTimeout [3] 3).1) :=
  ⟨by decide, C10_timeout_in_band [3] [] 3 (by decide)⟩
